import Mathlib

/-!
# Camera framing of the Bomber arena game

A shallow embedding of `UMyCameraComponent` and `FCameraDistanceParams`
(`Source/Bomber/Private/Components/MyCameraComponent.cpp`) together with
`UUtilsLibrary::GetViewportAspectRatioAxisConstraint` and
`UUtilsLibrary::GetAttachedActorByClass`
(`Plugins/MyEditorUtils/.../UtilsLibrary.cpp`).

* `float` is an arbitrary linearly ordered field `α` (exact arithmetic); every
  definition is computable and can be evaluated at `α = ℚ`.
* Nullable pointers are `Option`.
* Engine services whose bodies are outside the files at hand (the tangent, the
  cell-array helpers of `FCell`, the singletons) are parameters, collected in
  `FMathLib` and `FWorld`.
* The mutable members of the component are the record `UMyCameraComponent`;
  member functions that write return the new record.
-/

namespace Bomber

/-! ## Engine value types -/

/-- Engine enumeration `EAspectRatioAxisConstraint`. -/
inductive EAspectRatioAxisConstraint where
  | AspectRatio_MaintainYFOV
  | AspectRatio_MaintainXFOV
  | AspectRatio_MajorAxisFOV
  | AspectRatio_MAX
  deriving DecidableEq, Repr

/-- Game enumeration `ECurrentGameState`: the three values the camera names in its
`switch`, and the remaining ones, which all reach `default`. -/
inductive ECurrentGameState where
  | None
  | Menu
  | GameStarting
  | EndGame
  | InGame
  | Cinematic
  deriving DecidableEq, Repr

/-- Engine type `FVector2D`. -/
@[ext] structure FVector2D (α : Type) where
  X : α
  Y : α
  deriving DecidableEq

/-- Engine type `FVector`. -/
@[ext] structure FVector (α : Type) where
  X : α
  Y : α
  Z : α
  deriving DecidableEq

/-- A cell of the level grid: `FCell`, of which the camera reads `Location`. -/
@[ext] structure FCell (α : Type) where
  Location : FVector α
  deriving DecidableEq

/-- The type `FCells`, a collection of cells. -/
abbrev FCells (α : Type) : Type := List (FCell α)

/-- The two `FMath` functions on angles that the camera calls; their bodies belong
to the engine, so they are parameters. -/
structure FMathLib (α : Type) where
  Tan : α → α
  DegreesToRadians : α → α

section Field

variable {α : Type} [LinearOrderedField α]

/-- Engine `FMath::Max(A, B)`, which is `(B < A) ? A : B`. -/
def FMath.Max (A B : α) : α := if B < A then A else B

/-- Engine `FMath::Lerp(A, B, Alpha)` on scalars, which is `A + Alpha * (B - A)`. -/
def FMath.Lerp (A B Alpha : α) : α := A + Alpha * (B - A)

/-- Engine `FMath::Abs`. -/
def FMath.Abs (A : α) : α := if A < 0 then -A else A

/-- Engine `FVector2D::operator*(float)`. -/
def FVector2D.scale (V : FVector2D α) (S : α) : FVector2D α := ⟨V.X * S, V.Y * S⟩

/-- Engine `FVector::operator+`. -/
def FVector.add (A B : FVector α) : FVector α := ⟨A.X + B.X, A.Y + B.Y, A.Z + B.Z⟩

/-- Engine `FVector::operator-`. -/
def FVector.sub (A B : FVector α) : FVector α := ⟨A.X - B.X, A.Y - B.Y, A.Z - B.Z⟩

/-- Engine `FVector::operator*(float)`. -/
def FVector.scale (V : FVector α) (S : α) : FVector α := ⟨V.X * S, V.Y * S, V.Z * S⟩

/-- Engine `FMath::Lerp(A, B, Alpha)` on vectors: `A + Alpha * (B - A)`. -/
def FVector.Lerp (A B : FVector α) (Alpha : α) : FVector α :=
  ⟨FMath.Lerp A.X B.X Alpha, FMath.Lerp A.Y B.Y Alpha, FMath.Lerp A.Z B.Z Alpha⟩

/-- Engine `FVector::Equals(V, Tolerance)`: every coordinate differs by at most
`Tolerance`. -/
def FVector.Equals (A V : FVector α) (Tolerance : α) : Bool :=
  decide (FMath.Abs (A.X - V.X) ≤ Tolerance)
    && decide (FMath.Abs (A.Y - V.Y) ≤ Tolerance)
    && decide (FMath.Abs (A.Z - V.Z) ≤ Tolerance)

end Field

/-! ## The viewport's aspect-ratio constraint -/

/-- Engine `ULocalPlayer`, of which `AspectRatioAxisConstraint` is read. -/
structure ULocalPlayer where
  AspectRatioAxisConstraint : EAspectRatioAxisConstraint
  deriving DecidableEq, Repr

/-- Engine `APlayerController`, of which `GetLocalPlayer()` is read. -/
structure APlayerController where
  LocalPlayer : Option ULocalPlayer
  deriving DecidableEq, Repr

/-- Engine `UEngine`, of which `GetFirstLocalPlayerController(GWorld)` is read. -/
structure UEngine where
  FirstLocalPlayerController : Option APlayerController
  deriving DecidableEq, Repr

/-- The function `UUtilsLibrary::GetViewportAspectRatioAxisConstraint`; the argument
is the global pointer `GEngine`. -/
def GetViewportAspectRatioAxisConstraint (GEngine : Option UEngine) :
    EAspectRatioAxisConstraint :=
  let PlayerController : Option APlayerController :=
    match GEngine with
    | some Engine => Engine.FirstLocalPlayerController
    | none => none
  let LocalPlayer : Option ULocalPlayer :=
    match PlayerController with
    | some PC => PC.LocalPlayer
    | none => none
  match LocalPlayer with
  | some LP => LP.AspectRatioAxisConstraint
  | none => EAspectRatioAxisConstraint.AspectRatio_MAX

/-! ## `FCameraDistanceParams` -/

/-- The value object `FCameraDistanceParams`; a zero member means "not set". -/
@[ext] structure FCameraDistanceParams (α : Type) where
  FitViewAdditiveAngle : α
  MinDistance : α
  deriving DecidableEq

section Field

variable {α : Type} [LinearOrderedField α]

/-- The function `FCameraDistanceParams::CalculateFitViewAdditiveAngle`; the in-out
argument is returned. -/
def FCameraDistanceParams.CalculateFitViewAdditiveAngle (P : FCameraDistanceParams α)
    (GEngine : Option UEngine) (InOutFOV : α) : α :=
  if P.FitViewAdditiveAngle = 0 then
    InOutFOV
  else
    let VerticalModifier : α := -1
    let HorizontalModifier : α := 1
    let bIsVerticalScreen : Bool :=
      GetViewportAspectRatioAxisConstraint GEngine
        == EAspectRatioAxisConstraint.AspectRatio_MaintainXFOV
    let AspectRatioMultiplier : α :=
      if bIsVerticalScreen then VerticalModifier else HorizontalModifier
    InOutFOV - P.FitViewAdditiveAngle * AspectRatioMultiplier

/-- The function `FCameraDistanceParams::LimitToMinDistance`; the in-out argument is
returned. -/
def FCameraDistanceParams.LimitToMinDistance (P : FCameraDistanceParams α)
    (InOutCameraDistance : α) : α :=
  if P.MinDistance ≠ 0 then
    FMath.Max InOutCameraDistance P.MinDistance
  else
    InOutCameraDistance

/-- The static function `FCameraDistanceParams::CalculateDistanceToFitViewToFOV`. -/
def FCameraDistanceParams.CalculateDistanceToFitViewToFOV (M : FMathLib α)
    (GEngine : Option UEngine) (ViewSizeUU : FVector2D α) (CameraFOV : α) : α :=
  let NewFOV : α := M.Tan (M.DegreesToRadians (CameraFOV / 2))
  let bIsWideScreen : Bool :=
    GetViewportAspectRatioAxisConstraint GEngine
      == EAspectRatioAxisConstraint.AspectRatio_MaintainYFOV
  let HorizontalDistance : α :=
    if bIsWideScreen then ViewSizeUU.X / NewFOV else (ViewSizeUU.Y / 2) * NewFOV
  let VerticalDistance : α :=
    if bIsWideScreen then ViewSizeUU.X / (2 * NewFOV) else ViewSizeUU.Y / NewFOV
  FMath.Max HorizontalDistance VerticalDistance

end Field

/-! ## The world the camera component reads -/

/-- Engine `APlayerCameraManager`, of which `GetFOVAngle()` is read. -/
@[ext] structure APlayerCameraManager (α : Type) where
  FOVAngle : α
  deriving DecidableEq

/-- The local `AMyPlayerController`: its camera manager, and the view target last
passed to `SetViewTargetWithBlend` (the actor and the blend time). -/
@[ext] structure AMyPlayerController (α : Type) where
  PlayerCameraManager : Option (APlayerCameraManager α)
  ViewTarget : Option (Nat × α)
  deriving DecidableEq

/-- Everything outside the component that its member functions consult: the
singletons of `USingletonLibrary`, `UCellsUtilsLibrary`, `AMyGameStateBase` and
`UGameStateDataAsset`, the global `GEngine`, and the static helpers of `FCell`. -/
structure FWorld (α : Type) where
  /-- The angle functions of `FMath`. -/
  Math : FMathLib α
  /-- The global `GEngine`. -/
  GEngine : Option UEngine
  /-- The result of `USingletonLibrary::GetLocalPlayerController()`. -/
  LocalPlayerController : Option (AMyPlayerController α)
  /-- The result of `USingletonLibrary::GetAlivePlayersNum()`. -/
  AlivePlayersNum : Int
  /-- The result of `AMyGameStateBase::GetCurrentGameState()`. -/
  CurrentGameState : ECurrentGameState
  /-- The result of `UCellsUtilsLibrary::GetAllCellsWithActors(TO_FLAG(EAT::Player))`. -/
  PlayersCells : FCells α
  /-- The result of `UCellsUtilsLibrary::GetCornerCellsOnLevel()`. -/
  CornerCells : FCells α
  /-- The result of `UGameStateDataAsset::Get().GetStartingCountdown()`. -/
  StartingCountdown : α
  /-- The constant `FCell::CellSize`. -/
  CellSize : α
  /-- The static function `FCell::GetCellArraySize`. -/
  GetCellArraySize : FCells α → FVector2D α
  /-- The static function `FCell::GetCellArrayCenter`. -/
  GetCellArrayCenter : FCells α → FCell α

/-! ## `UMyCameraComponent` -/

/-- The members of `UMyCameraComponent` that its functions read or write. -/
@[ext] structure UMyCameraComponent (α : Type) where
  /-- The result of `GetOwner()`, an actor identity. -/
  Owner : Option Nat
  /-- What `GetComponentLocation()` reads and `SetWorldLocation` writes. -/
  ComponentLocation : FVector α
  FieldOfView : α
  DistanceParamsInternal : FCameraDistanceParams α
  bIsCameraLockedOnCenterInternal : Bool
  bForceStartInternal : Bool
  /-- What `IsComponentTickEnabled()` reads and `SetComponentTickEnabled` writes. -/
  bComponentTickEnabled : Bool
  deriving DecidableEq

section Field

variable {α : Type} [LinearOrderedField α]

namespace UMyCameraComponent

/-- The function `UMyCameraComponent::GetCameraManagerFOV`. -/
def GetCameraManagerFOV (W : FWorld α) (C : UMyCameraComponent α) : α :=
  let PlayerCameraManager : Option (APlayerCameraManager α) :=
    match W.LocalPlayerController with
    | some PC => PC.PlayerCameraManager
    | none => none
  match PlayerCameraManager with
  | some PCM => PCM.FOVAngle
  | none => C.FieldOfView

/-- The function `UMyCameraComponent::GetCameraDistanceToCells`. -/
def GetCameraDistanceToCells (W : FWorld α) (C : UMyCameraComponent α)
    (Cells : FCells α) : α :=
  let CurrentFOV0 : α := GetCameraManagerFOV W C
  let CurrentFOV : α :=
    C.DistanceParamsInternal.CalculateFitViewAdditiveAngle W.GEngine CurrentFOV0
  let ViewSizeUU : FVector2D α := (W.GetCellArraySize Cells).scale W.CellSize
  let CameraDistance : α :=
    FCameraDistanceParams.CalculateDistanceToFitViewToFOV W.Math W.GEngine ViewSizeUU
      CurrentFOV
  C.DistanceParamsInternal.LimitToMinDistance CameraDistance

/-- The function `UMyCameraComponent::GetCameraLocationBetweenCells`. -/
def GetCameraLocationBetweenCells (W : FWorld α) (C : UMyCameraComponent α)
    (Cells : FCells α) : FVector α :=
  let NewLocation : FVector α := (W.GetCellArrayCenter Cells).Location
  { NewLocation with Z := NewLocation.Z + GetCameraDistanceToCells W C Cells }

/-- The function `UMyCameraComponent::GetCameraLocationBetweenPlayers`. -/
def GetCameraLocationBetweenPlayers (W : FWorld α) (C : UMyCameraComponent α) :
    FVector α :=
  let PlayersCells : FCells α := W.PlayersCells
  GetCameraLocationBetweenCells W C PlayersCells

/-- The function `UMyCameraComponent::GetCameraLockedLocation`. -/
def GetCameraLockedLocation (W : FWorld α) (C : UMyCameraComponent α) : FVector α :=
  let CornerCells : FCells α := W.CornerCells
  GetCameraLocationBetweenCells W C CornerCells

/-- The lambda `MoveCamera` of `UpdateLocation`. -/
def MoveCamera (C : UMyCameraComponent α) (DeltaTime : α) (NewLocation : FVector α) :
    UMyCameraComponent α :=
  let NewLocation1 : FVector α :=
    if DeltaTime ≠ 0 then FVector.Lerp C.ComponentLocation NewLocation DeltaTime
    else NewLocation
  { C with ComponentLocation := NewLocation1 }

/-- The constant `Tolerance` of `UpdateLocation`. -/
def Tolerance : α := 10

/-- The condition of the first `if` of `UpdateLocation`: "if true, the camera will be
forced moving to the start position". -/
def IsForcedToStart (W : FWorld α) (C : UMyCameraComponent α) : Bool :=
  C.bIsCameraLockedOnCenterInternal
    || W.AlivePlayersNum == 0
    || C.bForceStartInternal

/-- The function `UMyCameraComponent::UpdateLocation`: the component afterwards and
the returned flag. -/
def UpdateLocation (W : FWorld α) (C : UMyCameraComponent α) (DeltaTime : α) :
    UMyCameraComponent α × Bool :=
  if IsForcedToStart W C then
    let CameraWorldLocation : FVector α := C.ComponentLocation
    let CameraLockedLocation : FVector α := GetCameraLockedLocation W C
    let bShouldLerp : Bool := !CameraWorldLocation.Equals CameraLockedLocation Tolerance
    if bShouldLerp then
      (MoveCamera C DeltaTime CameraLockedLocation, bShouldLerp)
    else
      (C, bShouldLerp)
  else
    (MoveCamera C DeltaTime (GetCameraLocationBetweenPlayers W C), true)

/-- The function `UMyCameraComponent::SetCameraLockedOnCenter`. -/
def SetCameraLockedOnCenter (W : FWorld α) (C : UMyCameraComponent α)
    (bInCameraLockedOnCenter : Bool) : UMyCameraComponent α :=
  let C1 : UMyCameraComponent α :=
    { C with bIsCameraLockedOnCenterInternal := bInCameraLockedOnCenter }
  if !bInCameraLockedOnCenter
      && !C1.bComponentTickEnabled
      && W.CurrentGameState == ECurrentGameState.InGame then
    { C1 with bComponentTickEnabled := true }
  else
    C1

/-- The function `UMyCameraComponent::SetCameraDistanceParams`. -/
def SetCameraDistanceParams (W : FWorld α) (C : UMyCameraComponent α)
    (InCameraDistanceParams : FCameraDistanceParams α) : UMyCameraComponent α :=
  let C1 : UMyCameraComponent α := { C with DistanceParamsInternal := InCameraDistanceParams }
  (UpdateLocation W C1 0).1

/-- The function `UMyCameraComponent::TickComponent`. -/
def TickComponent (W : FWorld α) (C : UMyCameraComponent α) (DeltaTime : α) :
    UMyCameraComponent α :=
  let R : UMyCameraComponent α × Bool := UpdateLocation W C DeltaTime
  if !R.2 then
    { R.1 with bComponentTickEnabled := false }
  else
    R.1

/-- The function `UMyCameraComponent::PossessCamera`: it writes the view target of the
local player controller. -/
def PossessCamera (W : FWorld α) (C : UMyCameraComponent α) : FWorld α :=
  match C.Owner, W.LocalPlayerController with
  | some Owner, some MyPC =>
    let BlendTime : α := W.StartingCountdown
    { W with LocalPlayerController := some { MyPC with ViewTarget := some (Owner, BlendTime) } }
  | _, _ => W

/-- The function `UMyCameraComponent::OnGameStateChanged`. -/
def OnGameStateChanged (W : FWorld α) (C : UMyCameraComponent α)
    (CurrentGameState : ECurrentGameState) : FWorld α × UMyCameraComponent α :=
  match CurrentGameState with
  | ECurrentGameState.GameStarting =>
    (PossessCamera W C, { C with bComponentTickEnabled := true })
  | ECurrentGameState.EndGame =>
    (W, { C with bForceStartInternal := true, bComponentTickEnabled := true })
  | ECurrentGameState.InGame =>
    (W, { C with bForceStartInternal := false, bComponentTickEnabled := true })
  | _ =>
    (W, { C with bComponentTickEnabled := false })

/-- The function `UMyCameraComponent::OnAspectRatioChanged`. -/
def OnAspectRatioChanged (W : FWorld α) (C : UMyCameraComponent α) (_NewAspectRatio : α) :
    UMyCameraComponent α :=
  (UpdateLocation W C 0).1

end UMyCameraComponent

end Field

/-! ## Attached actors

`UUtilsLibrary::GetAttachedActorByClass` walks the attachment tree of an actor. An actor
is a node carrying its class and the array that `GetAttachedActors` fills, whose
elements are nullable pointers; being an inductive type, the tree is finite and
acyclic. -/

/-- Engine `UClass`, a class identity. -/
abbrev UClass : Type := Nat

/-- Engine `AActor`: an identity, the actor's class, and the result of
`GetAttachedActors`. -/
inductive AActor where
  | mk (Name : Nat) (Class : UClass) (AttachedActors : List (Option AActor))

/-- The identity of an actor. -/
def AActor.Name : AActor → Nat
  | AActor.mk Name _ _ => Name

/-- The result of `GetClass()`. -/
def AActor.Class : AActor → UClass
  | AActor.mk _ Class _ => Class

/-- The array that `GetAttachedActors` fills. -/
def AActor.AttachedActors : AActor → List (Option AActor)
  | AActor.mk _ _ AttachedActors => AttachedActors

mutual
/-- The function `UUtilsLibrary::GetAttachedActorByClass`. The parameter `IsChildOf` is
the engine's class hierarchy, so that `It->IsA(ChildActorClass)` is
`IsChildOf It.Class ChildActorClass`. -/
def GetAttachedActorByClass (IsChildOf : UClass → UClass → Bool)
    (ParentActor : Option AActor) (ChildActorClass : UClass) (bIncludeDescendants : Bool) :
    Option AActor :=
  match ParentActor with
  | none => none
  | some (AActor.mk _ _ AttachedActors) =>
    if AttachedActors.isEmpty then
      none
    else
      GetAttachedActorByClass.loop IsChildOf AttachedActors ChildActorClass
        bIncludeDescendants
/-- The `for` loop of `GetAttachedActorByClass` over the elements not yet visited. -/
def GetAttachedActorByClass.loop (IsChildOf : UClass → UClass → Bool)
    (Rest : List (Option AActor)) (ChildActorClass : UClass) (bIncludeDescendants : Bool) :
    Option AActor :=
  match Rest with
  | [] => none
  | It :: Rest1 =>
    if (match It with
        | some A => IsChildOf A.Class ChildActorClass
        | none => false) then
      It
    else if bIncludeDescendants then
      match GetAttachedActorByClass IsChildOf It ChildActorClass bIncludeDescendants with
      | some FoundActor => some FoundActor
      | none =>
        GetAttachedActorByClass.loop IsChildOf Rest1 ChildActorClass bIncludeDescendants
    else
      GetAttachedActorByClass.loop IsChildOf Rest1 ChildActorClass bIncludeDescendants
end

mutual
/-- The actors below an actor in depth-first pre-order: each attached actor followed by
its own descendants, null pointers left out. This is the scope of the search in the
words of its description, not a part of the source. -/
def AActor.Descendants : AActor → List AActor
  | AActor.mk _ _ AttachedActors => AActor.DescendantsOfList AttachedActors
/-- The pre-order of `AActor.Descendants` over an array of attached actors. -/
def AActor.DescendantsOfList : List (Option AActor) → List AActor
  | [] => []
  | none :: Rest => AActor.DescendantsOfList Rest
  | some A :: Rest => A :: (A.Descendants ++ AActor.DescendantsOfList Rest)
end

/-- The scope of the search in the words of its description: the direct children in the
order of `GetAttachedActors` without descendants, and the depth-first pre-order with
them; null pointers left out. Not a part of the source. -/
def AActor.AttachedScope (ParentActor : AActor) (bIncludeDescendants : Bool) : List AActor :=
  if bIncludeDescendants then ParentActor.Descendants
  else ParentActor.AttachedActors.reduceOption

/-! ## A concrete world over the rationals

The parameters of `FWorld` instantiated, for evaluating the definitions above on
concrete inputs. -/

namespace Sample

/-- Angles stay in degrees and the tangent is the chord through its exact values at
0 and 45 degrees, so that a field of view of 90 degrees has half-angle tangent 1. -/
def Math : FMathLib ℚ where
  Tan := fun D => D / 45
  DegreesToRadians := fun D => D

/-- An engine whose first local player has the given constraint. -/
def Engine (Constraint : EAspectRatioAxisConstraint) : Option UEngine :=
  some ⟨some ⟨some ⟨Constraint⟩⟩⟩

/-- The least element of a list, 0 for the empty list. -/
def ListMin : List ℚ → ℚ
  | [] => 0
  | A :: As => As.foldl min A

/-- The greatest element of a list, 0 for the empty list. -/
def ListMax : List ℚ → ℚ
  | [] => 0
  | A :: As => As.foldl max A

/-- The edge of a cell, 200 units. -/
def CellSize : ℚ := 200

/-- The planar extents of the axis-aligned bounding box of the cells, in cells. -/
def GetCellArraySize (Cells : FCells ℚ) : FVector2D ℚ :=
  ⟨(ListMax (Cells.map fun C => C.Location.X) - ListMin (Cells.map fun C => C.Location.X))
      / CellSize,
   (ListMax (Cells.map fun C => C.Location.Y) - ListMin (Cells.map fun C => C.Location.Y))
      / CellSize⟩

/-- The center of the axis-aligned bounding box of the cells. -/
def GetCellArrayCenter (Cells : FCells ℚ) : FCell ℚ :=
  ⟨⟨(ListMin (Cells.map fun C => C.Location.X) + ListMax (Cells.map fun C => C.Location.X)) / 2,
    (ListMin (Cells.map fun C => C.Location.Y) + ListMax (Cells.map fun C => C.Location.Y)) / 2,
    (ListMin (Cells.map fun C => C.Location.Z) + ListMax (Cells.map fun C => C.Location.Z)) / 2⟩⟩

/-- The four corners of a 1000 x 2000 level centred at the origin. -/
def CornerCells : FCells ℚ :=
  [⟨⟨-500, -1000, 0⟩⟩, ⟨⟨500, -1000, 0⟩⟩, ⟨⟨-500, 1000, 0⟩⟩, ⟨⟨500, 1000, 0⟩⟩]

/-- Two players, 400 apart along X and 200 apart along Y. -/
def PlayersCells : FCells ℚ :=
  [⟨⟨100, 100, 0⟩⟩, ⟨⟨500, 300, 0⟩⟩]

/-- A running round seen through a camera manager with a field of view of 90 degrees:
two players alive, the given aspect-ratio constraint. -/
def World (Constraint : EAspectRatioAxisConstraint) : FWorld ℚ where
  Math := Math
  GEngine := Engine Constraint
  LocalPlayerController := some ⟨some ⟨90⟩, none⟩
  AlivePlayersNum := 2
  CurrentGameState := ECurrentGameState.InGame
  PlayersCells := PlayersCells
  CornerCells := CornerCells
  StartingCountdown := 3
  CellSize := CellSize
  GetCellArraySize := GetCellArraySize
  GetCellArrayCenter := GetCellArrayCenter

/-- A camera at the given location with the given distance parameters, unlocked, not
forced to the start, ticking. -/
def Camera (Location : FVector ℚ) (Params : FCameraDistanceParams ℚ) :
    UMyCameraComponent ℚ where
  Owner := some 1
  ComponentLocation := Location
  FieldOfView := 90
  DistanceParamsInternal := Params
  bIsCameraLockedOnCenterInternal := false
  bForceStartInternal := false
  bComponentTickEnabled := true

/-- A class hierarchy without inheritance: an actor is of a class exactly when it is its
own class. -/
def IsChildOf (Class Base : UClass) : Bool := Class == Base

/-- An actor 0 with three attached elements: actor 1 of class 1, which carries actor 2
of class 7, then a null pointer, then actor 3 of class 7. -/
def Tree : AActor :=
  AActor.mk 0 0
    [some (AActor.mk 1 1 [some (AActor.mk 2 7 [])]), none, some (AActor.mk 3 7 [])]

end Sample

/-! ## Auxiliary facts -/

section Field

variable {α : Type} [LinearOrderedField α]

open EAspectRatioAxisConstraint

/-- The engine maximum is the maximum of the order. -/
theorem FMath.Max_eq_max (A B : α) : FMath.Max A B = max A B := by
  unfold FMath.Max
  split_ifs with h
  · exact (max_eq_left h.le).symm
  · exact (max_eq_right (not_lt.mp h)).symm

/-- The engine absolute value is the absolute value of the order. -/
theorem FMath.Abs_eq_abs (A : α) : FMath.Abs A = |A| := by
  unfold FMath.Abs
  split_ifs with h
  · exact (abs_of_neg h).symm
  · exact (abs_of_nonneg (not_lt.mp h)).symm

/-- Two vectors are `Equals` within a tolerance exactly when every coordinate differs by
at most the tolerance. -/
theorem FVector.Equals_iff (A V : FVector α) (T : α) :
    A.Equals V T = true ↔ |A.X - V.X| ≤ T ∧ |A.Y - V.Y| ≤ T ∧ |A.Z - V.Z| ≤ T := by
  simp [FVector.Equals, FMath.Abs_eq_abs, and_assoc]

/-- The interpolation of `MoveCamera` is the start plus the remaining distance scaled by
the time step. -/
theorem FVector.Lerp_eq (A B : FVector α) (Alpha : α) :
    FVector.Lerp A B Alpha = A.add ((B.sub A).scale Alpha) := by
  simp [FVector.Lerp, FMath.Lerp, FVector.add, FVector.sub, FVector.scale, mul_comm]

/-- The sample engine reports the constraint it was built with. -/
theorem Sample.constraint_Engine (Constraint : EAspectRatioAxisConstraint) :
    GetViewportAspectRatioAxisConstraint (Sample.Engine Constraint) = Constraint := rfl

/-- On a wide screen the fit distance is the maximum of the two candidates computed from
the X extent. -/
theorem FCameraDistanceParams.distance_of_wide (M : FMathLib α) (G : Option UEngine)
    (V : FVector2D α) (F : α)
    (hG : GetViewportAspectRatioAxisConstraint G = AspectRatio_MaintainYFOV) :
    FCameraDistanceParams.CalculateDistanceToFitViewToFOV M G V F
      = max (V.X / M.Tan (M.DegreesToRadians (F / 2)))
          (V.X / (2 * M.Tan (M.DegreesToRadians (F / 2)))) := by
  simp [FCameraDistanceParams.CalculateDistanceToFitViewToFOV, hG, FMath.Max_eq_max]

/-- On any other screen the fit distance is the maximum of the two candidates computed
from the Y extent. -/
theorem FCameraDistanceParams.distance_of_not_wide (M : FMathLib α) (G : Option UEngine)
    (V : FVector2D α) (F : α)
    (hG : GetViewportAspectRatioAxisConstraint G ≠ AspectRatio_MaintainYFOV) :
    FCameraDistanceParams.CalculateDistanceToFitViewToFOV M G V F
      = max (V.Y / 2 * M.Tan (M.DegreesToRadians (F / 2)))
          (V.Y / M.Tan (M.DegreesToRadians (F / 2))) := by
  simp [FCameraDistanceParams.CalculateDistanceToFitViewToFOV, hG, FMath.Max_eq_max]

/-- A distance of at least `x / k` shows an extent `x` in a frustum of half-angle
tangent `k`. -/
theorem extent_le_of_div_le {x k d : α} (hk : 0 < k) (hx : 0 ≤ x) (hd : x / k ≤ d) :
    x ≤ 2 * d * k := by
  have h1 : x ≤ d * k := (div_le_iff₀ hk).mp hd
  nlinarith

end Field

/-! ## The distance calculator -/

section Distance

variable {α : Type} [LinearOrderedField α]

open EAspectRatioAxisConstraint FCameraDistanceParams

/-- C1, as stated, fails: at a field of view of 90 degrees (half-angle tangent 1) a
1000 x 3000 view on a `MaintainYFOV` screen gets the distance 1000, which leaves the
height 3000 outside `2 * d * k = 2000`; symmetrically a 3000 x 1000 view on a
`MaintainXFOV` screen gets the distance 1000, which leaves the width outside. -/
theorem C1_counterexample :
    Sample.Math.Tan (Sample.Math.DegreesToRadians (90 / 2)) = 1
    ∧ CalculateDistanceToFitViewToFOV Sample.Math (Sample.Engine AspectRatio_MaintainYFOV)
        ⟨1000, 3000⟩ 90 = 1000
    ∧ ¬ ((3000 : ℚ) ≤ 2
          * CalculateDistanceToFitViewToFOV Sample.Math (Sample.Engine AspectRatio_MaintainYFOV)
              ⟨1000, 3000⟩ 90
          * Sample.Math.Tan (Sample.Math.DegreesToRadians (90 / 2)))
    ∧ CalculateDistanceToFitViewToFOV Sample.Math (Sample.Engine AspectRatio_MaintainXFOV)
        ⟨3000, 1000⟩ 90 = 1000
    ∧ ¬ ((3000 : ℚ) ≤ 2
          * CalculateDistanceToFitViewToFOV Sample.Math (Sample.Engine AspectRatio_MaintainXFOV)
              ⟨3000, 1000⟩ 90
          * Sample.Math.Tan (Sample.Math.DegreesToRadians (90 / 2))) := by
  have hY := distance_of_wide Sample.Math (Sample.Engine AspectRatio_MaintainYFOV)
    ⟨1000, 3000⟩ 90 rfl
  have hX := distance_of_not_wide Sample.Math (Sample.Engine AspectRatio_MaintainXFOV)
    ⟨3000, 1000⟩ 90 (by decide)
  have hk : Sample.Math.Tan (Sample.Math.DegreesToRadians (90 / 2)) = 1 := by
    norm_num [Sample.Math]
  rw [hk] at hY hX
  rw [hY, hX, hk]
  norm_num

/-- C1, amended: for a view with non-negative extents and a positive half-angle tangent
`k`, the distance `d` of `CalculateDistanceToFitViewToFOV` shows the extent its formulas
are computed from: the width under `MaintainYFOV`, the height under `MaintainXFOV`. -/
theorem C1_fits_constrained_axis (M : FMathLib α) (G : Option UEngine) (V : FVector2D α)
    (F : α) (hk : 0 < M.Tan (M.DegreesToRadians (F / 2))) (hX : 0 ≤ V.X) (hY : 0 ≤ V.Y) :
    (GetViewportAspectRatioAxisConstraint G = AspectRatio_MaintainYFOV →
      V.X ≤ 2 * CalculateDistanceToFitViewToFOV M G V F * M.Tan (M.DegreesToRadians (F / 2)))
    ∧ (GetViewportAspectRatioAxisConstraint G = AspectRatio_MaintainXFOV →
      V.Y ≤ 2 * CalculateDistanceToFitViewToFOV M G V F
        * M.Tan (M.DegreesToRadians (F / 2))) := by
  constructor
  · intro hG
    apply extent_le_of_div_le hk hX
    rw [distance_of_wide M G V F hG]
    exact le_max_left _ _
  · intro hG
    apply extent_le_of_div_le hk hY
    rw [distance_of_not_wide M G V F (by rw [hG]; decide)]
    exact le_max_right _ _

/-- C1, amended, at a 1000 x 3000 view, 90 degrees, `MaintainYFOV`: the width fits. -/
theorem C1_fits_constrained_axis_witness :
    (1000 : ℚ) ≤ 2
      * CalculateDistanceToFitViewToFOV Sample.Math (Sample.Engine AspectRatio_MaintainYFOV)
          ⟨1000, 3000⟩ 90
      * Sample.Math.Tan (Sample.Math.DegreesToRadians (90 / 2)) :=
  (C1_fits_constrained_axis Sample.Math (Sample.Engine AspectRatio_MaintainYFOV)
    ⟨1000, 3000⟩ 90 (by norm_num [Sample.Math]) (by norm_num) (by norm_num)).1 rfl

/-- C2, as stated, fails: the corners of the 1000 x 2000 level seen at 90 degrees
(half-angle tangent 1) with no additive angle and no minimal distance on a
`MaintainXFOV` screen give the distance 2000, not `max (1000 / 2) (2000 / 2) = 1000`. -/
theorem C2_counterexample :
    (Sample.GetCellArraySize Sample.CornerCells).scale Sample.CellSize = ⟨1000, 2000⟩
    ∧ Sample.Math.Tan (Sample.Math.DegreesToRadians (90 / 2)) = 1
    ∧ UMyCameraComponent.GetCameraDistanceToCells (Sample.World AspectRatio_MaintainXFOV)
        (Sample.Camera ⟨0, 0, 0⟩ ⟨0, 0⟩) Sample.CornerCells = 2000
    ∧ UMyCameraComponent.GetCameraDistanceToCells (Sample.World AspectRatio_MaintainXFOV)
        (Sample.Camera ⟨0, 0, 0⟩ ⟨0, 0⟩) Sample.CornerCells
        ≠ max ((1000 : ℚ) / (2 * 1)) (2000 / (2 * 1)) := by
  have hne : AspectRatio_MaintainXFOV ≠ AspectRatio_MaintainYFOV := by decide
  have hd : UMyCameraComponent.GetCameraDistanceToCells
      (Sample.World AspectRatio_MaintainXFOV) (Sample.Camera ⟨0, 0, 0⟩ ⟨0, 0⟩)
      Sample.CornerCells = 2000 := by
    norm_num [UMyCameraComponent.GetCameraDistanceToCells, Sample.World, Sample.Camera,
      Sample.CornerCells, UMyCameraComponent.GetCameraManagerFOV,
      CalculateFitViewAdditiveAngle, LimitToMinDistance, CalculateDistanceToFitViewToFOV,
      GetViewportAspectRatioAxisConstraint, Sample.Engine, Sample.Math,
      Sample.GetCellArraySize, Sample.CellSize, Sample.ListMax, Sample.ListMin,
      FVector2D.scale, FMath.Max, hne]
  refine ⟨?_, ?_, hd, ?_⟩
  · norm_num [Sample.GetCellArraySize, Sample.CornerCells, Sample.CellSize, Sample.ListMax,
      Sample.ListMin, FVector2D.scale]
  · norm_num [Sample.Math]
  · rw [hd]
    norm_num

/-- C2, amended: with no additive angle and no minimal distance, the distance of
`GetCameraDistanceToCells` is `CalculateDistanceToFitViewToFOV` of the view size at the
camera's field of view; with `k` the half-angle tangent that is
`max (width / k) (width / (2 * k))` under `MaintainYFOV` and
`max (height / 2 * k) (height / k)` under every other constraint; for the 1000 x 2000
view and `k = 1` it is 1000 under `MaintainYFOV` and 2000 otherwise. -/
theorem C2_distance_formula (W : FWorld α) (C : UMyCameraComponent α) (Cells : FCells α)
    (hA : C.DistanceParamsInternal.FitViewAdditiveAngle = 0)
    (hM : C.DistanceParamsInternal.MinDistance = 0) :
    UMyCameraComponent.GetCameraDistanceToCells W C Cells
        = CalculateDistanceToFitViewToFOV W.Math W.GEngine
            ((W.GetCellArraySize Cells).scale W.CellSize)
            (UMyCameraComponent.GetCameraManagerFOV W C)
    ∧ (∀ (V : FVector2D α) (F : α),
        (GetViewportAspectRatioAxisConstraint W.GEngine = AspectRatio_MaintainYFOV →
          CalculateDistanceToFitViewToFOV W.Math W.GEngine V F
            = max (V.X / W.Math.Tan (W.Math.DegreesToRadians (F / 2)))
                (V.X / (2 * W.Math.Tan (W.Math.DegreesToRadians (F / 2)))))
        ∧ (GetViewportAspectRatioAxisConstraint W.GEngine ≠ AspectRatio_MaintainYFOV →
          CalculateDistanceToFitViewToFOV W.Math W.GEngine V F
            = max (V.Y / 2 * W.Math.Tan (W.Math.DegreesToRadians (F / 2)))
                (V.Y / W.Math.Tan (W.Math.DegreesToRadians (F / 2)))))
    ∧ (∀ F : α, W.Math.Tan (W.Math.DegreesToRadians (F / 2)) = 1 →
        (GetViewportAspectRatioAxisConstraint W.GEngine = AspectRatio_MaintainYFOV →
          CalculateDistanceToFitViewToFOV W.Math W.GEngine ⟨1000, 2000⟩ F = 1000)
        ∧ (GetViewportAspectRatioAxisConstraint W.GEngine ≠ AspectRatio_MaintainYFOV →
          CalculateDistanceToFitViewToFOV W.Math W.GEngine ⟨1000, 2000⟩ F = 2000)) := by
  refine ⟨?_, ?_, ?_⟩
  · simp [UMyCameraComponent.GetCameraDistanceToCells, CalculateFitViewAdditiveAngle,
      LimitToMinDistance, hA, hM]
  · intro V F
    exact ⟨distance_of_wide W.Math W.GEngine V F, distance_of_not_wide W.Math W.GEngine V F⟩
  · intro F hk
    constructor
    · intro hG
      rw [distance_of_wide W.Math W.GEngine _ F hG, hk]
      norm_num
    · intro hG
      rw [distance_of_not_wide W.Math W.GEngine _ F hG, hk]
      norm_num

/-- C2, amended, at the corners of the 1000 x 2000 level, 90 degrees, `MaintainYFOV`:
the distance is 1000. -/
theorem C2_distance_formula_witness :
    UMyCameraComponent.GetCameraDistanceToCells (Sample.World AspectRatio_MaintainYFOV)
        (Sample.Camera ⟨0, 0, 0⟩ ⟨0, 0⟩) Sample.CornerCells
      = CalculateDistanceToFitViewToFOV Sample.Math (Sample.Engine AspectRatio_MaintainYFOV)
          ((Sample.GetCellArraySize Sample.CornerCells).scale Sample.CellSize) 90
    ∧ CalculateDistanceToFitViewToFOV Sample.Math (Sample.Engine AspectRatio_MaintainYFOV)
        ⟨1000, 2000⟩ 90 = 1000 :=
  ⟨(C2_distance_formula (Sample.World AspectRatio_MaintainYFOV)
      (Sample.Camera ⟨0, 0, 0⟩ ⟨0, 0⟩) Sample.CornerCells rfl rfl).1,
   ((C2_distance_formula (Sample.World AspectRatio_MaintainYFOV)
      (Sample.Camera ⟨0, 0, 0⟩ ⟨0, 0⟩) Sample.CornerCells rfl rfl).2.2 90
      (by norm_num [Sample.World, Sample.Math])).1 rfl⟩

/-- C3: for a square view of extent `E ≥ 0` and a positive half-angle tangent, under
every aspect-ratio constraint, the distance `d` of `CalculateDistanceToFitViewToFOV`
places the full extent within the frustum: `E ≤ 2 * d * tan (F / 2)`. -/
theorem C3_square_fits (M : FMathLib α) (G : Option UEngine) (E F : α) (hE : 0 ≤ E)
    (hk : 0 < M.Tan (M.DegreesToRadians (F / 2))) :
    E ≤ 2 * CalculateDistanceToFitViewToFOV M G ⟨E, E⟩ F
          * M.Tan (M.DegreesToRadians (F / 2)) := by
  apply extent_le_of_div_le hk hE
  by_cases hG : GetViewportAspectRatioAxisConstraint G = AspectRatio_MaintainYFOV
  · rw [distance_of_wide M G _ F hG]
    exact le_max_left _ _
  · rw [distance_of_not_wide M G _ F hG]
    exact le_max_right _ _

/-- C3 at a square of extent 1000, 90 degrees, `MaintainXFOV`. -/
theorem C3_square_fits_witness :
    (1000 : ℚ) ≤ 2
      * CalculateDistanceToFitViewToFOV Sample.Math (Sample.Engine AspectRatio_MaintainXFOV)
          ⟨1000, 1000⟩ 90
      * Sample.Math.Tan (Sample.Math.DegreesToRadians (90 / 2)) :=
  C3_square_fits Sample.Math (Sample.Engine AspectRatio_MaintainXFOV) 1000 90 (by norm_num)
    (by norm_num [Sample.Math])

/-- C4: when `MinDistance` is set, `LimitToMinDistance` yields the maximum of the
distance and `MinDistance`, hence exactly `MinDistance` for a distance below it and the
distance itself otherwise; when `MinDistance` is zero the distance is returned unchanged;
and `GetCameraDistanceToCells` returns this clamp of the unclamped fit distance. -/
theorem C4_min_distance_clamp (W : FWorld α) (C : UMyCameraComponent α) (Cells : FCells α)
    (P : FCameraDistanceParams α) (d : α) :
    (P.MinDistance ≠ 0 → P.LimitToMinDistance d = max d P.MinDistance)
    ∧ (P.MinDistance ≠ 0 → d < P.MinDistance → P.LimitToMinDistance d = P.MinDistance)
    ∧ (P.MinDistance ≠ 0 → ¬ d < P.MinDistance → P.LimitToMinDistance d = d)
    ∧ (P.MinDistance = 0 → P.LimitToMinDistance d = d)
    ∧ UMyCameraComponent.GetCameraDistanceToCells W C Cells
        = C.DistanceParamsInternal.LimitToMinDistance
            (CalculateDistanceToFitViewToFOV W.Math W.GEngine
              ((W.GetCellArraySize Cells).scale W.CellSize)
              (C.DistanceParamsInternal.CalculateFitViewAdditiveAngle W.GEngine
                (UMyCameraComponent.GetCameraManagerFOV W C))) := by
  refine ⟨?_, ?_, ?_, ?_, rfl⟩
  · intro h
    simp [LimitToMinDistance, h, FMath.Max_eq_max]
  · intro h hlt
    simp [LimitToMinDistance, h, FMath.Max_eq_max, hlt.le]
  · intro h hge
    simp [LimitToMinDistance, h, FMath.Max_eq_max, not_lt.mp hge]
  · intro h
    simp [LimitToMinDistance, h]

/-- C4 at the minimal distance 500: an unclamped distance of 300 becomes exactly 500. -/
theorem C4_min_distance_clamp_witness :
    (⟨0, 500⟩ : FCameraDistanceParams ℚ).LimitToMinDistance 300 = 500 :=
  (C4_min_distance_clamp (Sample.World AspectRatio_MaintainYFOV)
    (Sample.Camera ⟨0, 0, 0⟩ ⟨0, 500⟩) Sample.CornerCells ⟨0, 500⟩ 300).2.1
    (by norm_num) (by norm_num)

/-- C5: `CalculateFitViewAdditiveAngle` leaves the field of view unchanged when
`FitViewAdditiveAngle` is zero; when it is set the result is the field of view plus the
angle under `MaintainXFOV` and minus the angle under every other constraint; and
`GetCameraDistanceToCells` takes the tangent of half the adjusted field of view. -/
theorem C5_additive_angle (W : FWorld α) (C : UMyCameraComponent α) (Cells : FCells α)
    (P : FCameraDistanceParams α) (G : Option UEngine) (F : α) :
    (P.FitViewAdditiveAngle = 0 → P.CalculateFitViewAdditiveAngle G F = F)
    ∧ (P.FitViewAdditiveAngle ≠ 0 →
        GetViewportAspectRatioAxisConstraint G = AspectRatio_MaintainXFOV →
        P.CalculateFitViewAdditiveAngle G F = F + P.FitViewAdditiveAngle)
    ∧ (P.FitViewAdditiveAngle ≠ 0 →
        GetViewportAspectRatioAxisConstraint G ≠ AspectRatio_MaintainXFOV →
        P.CalculateFitViewAdditiveAngle G F = F - P.FitViewAdditiveAngle)
    ∧ (∀ k : α,
        W.Math.Tan (W.Math.DegreesToRadians
          (C.DistanceParamsInternal.CalculateFitViewAdditiveAngle W.GEngine
            (UMyCameraComponent.GetCameraManagerFOV W C) / 2)) = k →
        UMyCameraComponent.GetCameraDistanceToCells W C Cells
          = C.DistanceParamsInternal.LimitToMinDistance
              (if GetViewportAspectRatioAxisConstraint W.GEngine = AspectRatio_MaintainYFOV
               then max (((W.GetCellArraySize Cells).scale W.CellSize).X / k)
                      (((W.GetCellArraySize Cells).scale W.CellSize).X / (2 * k))
               else max (((W.GetCellArraySize Cells).scale W.CellSize).Y / 2 * k)
                      (((W.GetCellArraySize Cells).scale W.CellSize).Y / k))) := by
  refine ⟨?_, ?_, ?_, ?_⟩
  · intro h
    simp [CalculateFitViewAdditiveAngle, h]
  · intro h hG
    simp [CalculateFitViewAdditiveAngle, h, hG, sub_eq_add_neg]
  · intro h hG
    simp [CalculateFitViewAdditiveAngle, h, hG]
  · intro k hk
    subst hk
    unfold UMyCameraComponent.GetCameraDistanceToCells
    split_ifs with hG
    · simp only [distance_of_wide W.Math W.GEngine _ _ hG]
    · simp only [distance_of_not_wide W.Math W.GEngine _ _ hG]

/-- C5 at an additive angle of 10 degrees and a field of view of 90 degrees: 100 degrees
on a `MaintainXFOV` screen. -/
theorem C5_additive_angle_witness :
    (⟨10, 0⟩ : FCameraDistanceParams ℚ).CalculateFitViewAdditiveAngle
      (Sample.Engine AspectRatio_MaintainXFOV) 90 = 90 + 10 :=
  (C5_additive_angle (Sample.World AspectRatio_MaintainXFOV)
    (Sample.Camera ⟨0, 0, 0⟩ ⟨10, 0⟩) Sample.CornerCells ⟨10, 0⟩
    (Sample.Engine AspectRatio_MaintainXFOV) 90).2.1 (by norm_num) rfl

end Distance

/-! ## The location composer -/

section Location

variable {α : Type} [LinearOrderedField α]

open EAspectRatioAxisConstraint UMyCameraComponent

/-- C6: `GetCameraLocationBetweenCells` returns the center of the cells moved along Z
by the camera distance: X and Y are those of `GetCellArrayCenter`, Z is the center's Z
plus `GetCameraDistanceToCells`; `GetCameraLockedLocation` is this function at the
level's corner cells and `GetCameraLocationBetweenPlayers` at the players' cells. -/
theorem C6_location_between_cells (W : FWorld α) (C : UMyCameraComponent α)
    (Cells : FCells α) :
    (GetCameraLocationBetweenCells W C Cells).X = (W.GetCellArrayCenter Cells).Location.X
    ∧ (GetCameraLocationBetweenCells W C Cells).Y = (W.GetCellArrayCenter Cells).Location.Y
    ∧ (GetCameraLocationBetweenCells W C Cells).Z
        = (W.GetCellArrayCenter Cells).Location.Z + GetCameraDistanceToCells W C Cells
    ∧ GetCameraLockedLocation W C = GetCameraLocationBetweenCells W C W.CornerCells
    ∧ GetCameraLocationBetweenPlayers W C = GetCameraLocationBetweenCells W C W.PlayersCells :=
  ⟨rfl, rfl, rfl, rfl, rfl⟩

end Location

/-! ## The framing controller -/

section Controller

open EAspectRatioAxisConstraint UMyCameraComponent

/-- The camera is forced to the start position exactly when the center-lock flag is set,
or no player is alive, or the force-start flag is set. -/
theorem UMyCameraComponent.IsForcedToStart_iff {β : Type} (W : FWorld β)
    (C : UMyCameraComponent β) :
    IsForcedToStart W C = true ↔
      C.bIsCameraLockedOnCenterInternal = true ∨ W.AlivePlayersNum = 0
        ∨ C.bForceStartInternal = true := by
  simp [IsForcedToStart, or_assoc]

/-- Possessing the camera does not change the number of alive players. -/
theorem UMyCameraComponent.AlivePlayersNum_PossessCamera {β : Type} (W : FWorld β)
    (C : UMyCameraComponent β) :
    (PossessCamera W C).AlivePlayersNum = W.AlivePlayersNum := by
  unfold PossessCamera
  split <;> rfl

/-- Possessing the camera does not change the cells of the level and of the players. -/
theorem UMyCameraComponent.Cells_PossessCamera {β : Type} (W : FWorld β) (C : UMyCameraComponent β) :
    (PossessCamera W C).CornerCells = W.CornerCells
      ∧ (PossessCamera W C).PlayersCells = W.PlayersCells := by
  unfold PossessCamera
  split <;> exact ⟨rfl, rfl⟩

variable {α : Type} [LinearOrderedField α]

/-- The branch of `UpdateLocation` taken when the camera is forced to the start. -/
theorem UMyCameraComponent.UpdateLocation_of_forced (W : FWorld α)
    (C : UMyCameraComponent α) (DeltaTime : α) (h : IsForcedToStart W C = true) :
    UpdateLocation W C DeltaTime
      = if C.ComponentLocation.Equals (GetCameraLockedLocation W C) Tolerance = true then
          (C, false)
        else
          (MoveCamera C DeltaTime (GetCameraLockedLocation W C), true) := by
  unfold UpdateLocation
  rw [if_pos h]
  by_cases hE : C.ComponentLocation.Equals (GetCameraLockedLocation W C) Tolerance = true
  · simp [hE]
  · simp [hE]

/-- The branch of `UpdateLocation` taken when the camera is not forced to the start. -/
theorem UMyCameraComponent.UpdateLocation_of_not_forced (W : FWorld α)
    (C : UMyCameraComponent α) (DeltaTime : α) (h : IsForcedToStart W C = false) :
    UpdateLocation W C DeltaTime
      = (MoveCamera C DeltaTime (GetCameraLocationBetweenPlayers W C), true) := by
  unfold UpdateLocation
  simp [h]

/-- The location between cells reads the component only through its field of view and its
distance parameters. -/
theorem UMyCameraComponent.GetCameraLocationBetweenCells_congr (W : FWorld α)
    (C D : UMyCameraComponent α) (Cells : FCells α) (hF : D.FieldOfView = C.FieldOfView)
    (hP : D.DistanceParamsInternal = C.DistanceParamsInternal) :
    GetCameraLocationBetweenCells W D Cells = GetCameraLocationBetweenCells W C Cells := by
  simp [GetCameraLocationBetweenCells, GetCameraDistanceToCells, GetCameraManagerFOV, hF, hP]

/-- Possessing the camera does not change the location between cells. -/
theorem UMyCameraComponent.GetCameraLocationBetweenCells_PossessCamera (W : FWorld α)
    (C D : UMyCameraComponent α) (Cells : FCells α) :
    GetCameraLocationBetweenCells (PossessCamera W C) D Cells
      = GetCameraLocationBetweenCells W D Cells := by
  unfold PossessCamera
  split
  · next Owner MyPC hO hPC =>
      simp [GetCameraLocationBetweenCells, GetCameraDistanceToCells, GetCameraManagerFOV, hPC]
  · rfl

/-- The locked location of the sample world on a `MaintainYFOV` screen. -/
theorem Sample.LockedLocation (Location : FVector ℚ) :
    GetCameraLockedLocation (Sample.World AspectRatio_MaintainYFOV)
      (Sample.Camera Location ⟨0, 0⟩) = ⟨0, 0, 1000⟩ := by
  norm_num [GetCameraLockedLocation, GetCameraLocationBetweenCells, GetCameraDistanceToCells,
    Sample.World, Sample.Camera, Sample.CornerCells, GetCameraManagerFOV,
    FCameraDistanceParams.CalculateFitViewAdditiveAngle,
    FCameraDistanceParams.LimitToMinDistance,
    FCameraDistanceParams.CalculateDistanceToFitViewToFOV,
    GetViewportAspectRatioAxisConstraint, Sample.Engine, Sample.Math, Sample.GetCellArraySize,
    Sample.GetCellArrayCenter, Sample.CellSize, Sample.ListMax, Sample.ListMin,
    FVector2D.scale, FMath.Max]

/-- The location between the players of the sample world on a `MaintainYFOV` screen. -/
theorem Sample.PlayersLocation (Location : FVector ℚ) :
    GetCameraLocationBetweenPlayers (Sample.World AspectRatio_MaintainYFOV)
      (Sample.Camera Location ⟨0, 0⟩) = ⟨300, 200, 400⟩ := by
  norm_num [GetCameraLocationBetweenPlayers, GetCameraLocationBetweenCells,
    GetCameraDistanceToCells, Sample.World, Sample.Camera, Sample.PlayersCells,
    GetCameraManagerFOV, FCameraDistanceParams.CalculateFitViewAdditiveAngle,
    FCameraDistanceParams.LimitToMinDistance,
    FCameraDistanceParams.CalculateDistanceToFitViewToFOV,
    GetViewportAspectRatioAxisConstraint, Sample.Engine, Sample.Math, Sample.GetCellArraySize,
    Sample.GetCellArrayCenter, Sample.CellSize, Sample.ListMax, Sample.ListMin,
    FVector2D.scale, FMath.Max]

/-- The sample camera in the sample world is not forced to the start. -/
theorem Sample.not_forced (Constraint : EAspectRatioAxisConstraint) (Location : FVector ℚ)
    (Params : FCameraDistanceParams ℚ) :
    IsForcedToStart (Sample.World Constraint) (Sample.Camera Location Params) = false := by
  simp [IsForcedToStart, Sample.World, Sample.Camera]

/-- C7, as stated, fails in the tracking state: with two players alive and no flag set,
a camera standing exactly on the location between the players (so within the tolerance
of its target) still gets `true` from `UpdateLocation`, and `TickComponent` leaves the
tick enabled. -/
theorem C7_counterexample :
    IsForcedToStart (Sample.World AspectRatio_MaintainYFOV)
        (Sample.Camera ⟨300, 200, 400⟩ ⟨0, 0⟩) = false
    ∧ (Sample.Camera ⟨300, 200, 400⟩ ⟨0, 0⟩).ComponentLocation.Equals
        (GetCameraLocationBetweenPlayers (Sample.World AspectRatio_MaintainYFOV)
          (Sample.Camera ⟨300, 200, 400⟩ ⟨0, 0⟩)) Tolerance = true
    ∧ (UpdateLocation (Sample.World AspectRatio_MaintainYFOV)
        (Sample.Camera ⟨300, 200, 400⟩ ⟨0, 0⟩) (1 / 60)).2 = true
    ∧ (TickComponent (Sample.World AspectRatio_MaintainYFOV)
        (Sample.Camera ⟨300, 200, 400⟩ ⟨0, 0⟩) (1 / 60)).bComponentTickEnabled = true := by
  have hF := Sample.not_forced AspectRatio_MaintainYFOV ⟨300, 200, 400⟩ ⟨0, 0⟩
  have hU := UpdateLocation_of_not_forced (Sample.World AspectRatio_MaintainYFOV)
    (Sample.Camera ⟨300, 200, 400⟩ ⟨0, 0⟩) (1 / 60) hF
  refine ⟨hF, ?_, ?_, ?_⟩
  · rw [Sample.PlayersLocation, FVector.Equals_iff]
    norm_num [Sample.Camera, Tolerance]
  · rw [hU]
  · unfold TickComponent
    rw [hU]
    simp [MoveCamera, Sample.Camera]

/-- C7, amended: when the camera is forced to the start (center-lock flag set, or no
player alive, or force-start flag set) and its location is within the tolerance of the
locked location (each coordinate differs by at most 10), `UpdateLocation` leaves the
component as it is and returns `false`, and `TickComponent` disables the tick; when the
camera is not forced to the start, `UpdateLocation` returns `true` wherever the camera
stands. -/
theorem C7_locked_within_tolerance (W : FWorld α) (C : UMyCameraComponent α)
    (DeltaTime : α) :
    ((C.bIsCameraLockedOnCenterInternal = true ∨ W.AlivePlayersNum = 0
        ∨ C.bForceStartInternal = true) →
      (|C.ComponentLocation.X - (GetCameraLockedLocation W C).X| ≤ 10
        ∧ |C.ComponentLocation.Y - (GetCameraLockedLocation W C).Y| ≤ 10
        ∧ |C.ComponentLocation.Z - (GetCameraLockedLocation W C).Z| ≤ 10) →
      UpdateLocation W C DeltaTime = (C, false)
        ∧ (TickComponent W C DeltaTime).bComponentTickEnabled = false)
    ∧ (¬ (C.bIsCameraLockedOnCenterInternal = true ∨ W.AlivePlayersNum = 0
        ∨ C.bForceStartInternal = true) →
      (UpdateLocation W C DeltaTime).2 = true) := by
  constructor
  · intro hF hE
    have hE1 : C.ComponentLocation.Equals (GetCameraLockedLocation W C) Tolerance = true :=
      (FVector.Equals_iff _ _ _).mpr hE
    have hU : UpdateLocation W C DeltaTime = (C, false) := by
      rw [UpdateLocation_of_forced W C DeltaTime ((IsForcedToStart_iff W C).mpr hF), if_pos hE1]
    refine ⟨hU, ?_⟩
    unfold TickComponent
    rw [hU]
    simp
  · intro hF
    have hF1 : IsForcedToStart W C = false := by
      rw [← Bool.not_eq_true]
      exact fun h => hF ((IsForcedToStart_iff W C).mp h)
    rw [UpdateLocation_of_not_forced W C DeltaTime hF1]

/-- C7, amended, at a center-locked camera 5 units below the locked location of the
sample world: the update returns `false` and leaves the component as it is. -/
theorem C7_locked_within_tolerance_witness :
    UpdateLocation (Sample.World AspectRatio_MaintainYFOV)
        (SetCameraLockedOnCenter (Sample.World AspectRatio_MaintainYFOV)
          (Sample.Camera ⟨0, 0, 995⟩ ⟨0, 0⟩) true) (1 / 60)
      = (SetCameraLockedOnCenter (Sample.World AspectRatio_MaintainYFOV)
          (Sample.Camera ⟨0, 0, 995⟩ ⟨0, 0⟩) true, false) :=
  ((C7_locked_within_tolerance (Sample.World AspectRatio_MaintainYFOV)
      (SetCameraLockedOnCenter (Sample.World AspectRatio_MaintainYFOV)
        (Sample.Camera ⟨0, 0, 995⟩ ⟨0, 0⟩) true) (1 / 60)).1
    (Or.inl rfl)
    (by
      have hL : GetCameraLockedLocation (Sample.World AspectRatio_MaintainYFOV)
          (SetCameraLockedOnCenter (Sample.World AspectRatio_MaintainYFOV)
            (Sample.Camera ⟨0, 0, 995⟩ ⟨0, 0⟩) true) = ⟨0, 0, 1000⟩ :=
        (GetCameraLocationBetweenCells_congr _ (Sample.Camera ⟨0, 0, 995⟩ ⟨0, 0⟩) _ _
          rfl rfl).trans (Sample.LockedLocation _)
      rw [hL]
      norm_num [SetCameraLockedOnCenter, Sample.Camera])).1

/-- C8: let the target be the locked location when the camera is forced to the start
and the location between the players otherwise. If the camera's location is not within
the tolerance of the target and the time step is not zero, `UpdateLocation` sets the
camera's location to `cur + (tgt - cur) * dt`, changes nothing else in the component, and
returns `true`. -/
theorem C8_moves_fraction (W : FWorld α) (C : UMyCameraComponent α) (DeltaTime : α)
    (Tgt : FVector α)
    (hT : Tgt = if IsForcedToStart W C = true then GetCameraLockedLocation W C
                else GetCameraLocationBetweenPlayers W C)
    (hne : ¬ (|C.ComponentLocation.X - Tgt.X| ≤ 10 ∧ |C.ComponentLocation.Y - Tgt.Y| ≤ 10
              ∧ |C.ComponentLocation.Z - Tgt.Z| ≤ 10))
    (hdt : DeltaTime ≠ 0) :
    UpdateLocation W C DeltaTime
      = ({ C with ComponentLocation :=
            C.ComponentLocation.add ((Tgt.sub C.ComponentLocation).scale DeltaTime) }, true) := by
  have hE : ¬ C.ComponentLocation.Equals Tgt Tolerance = true :=
    fun h => hne ((FVector.Equals_iff _ _ _).mp h)
  by_cases hF : IsForcedToStart W C = true
  · rw [if_pos hF] at hT
    subst hT
    rw [UpdateLocation_of_forced W C DeltaTime hF, if_neg hE]
    simp [MoveCamera, hdt, FVector.Lerp_eq]
  · rw [if_neg hF] at hT
    subst hT
    rw [UpdateLocation_of_not_forced W C DeltaTime (by simpa using hF)]
    simp [MoveCamera, hdt, FVector.Lerp_eq]

/-- C8 at the sample world: a tracking camera at the origin, half a second, target
(300, 200, 400): the camera moves to (150, 100, 200) and the update returns `true`. -/
theorem C8_moves_fraction_witness :
    UpdateLocation (Sample.World AspectRatio_MaintainYFOV) (Sample.Camera ⟨0, 0, 0⟩ ⟨0, 0⟩)
        (1 / 2)
      = (Sample.Camera ⟨150, 100, 200⟩ ⟨0, 0⟩, true) := by
  have h := C8_moves_fraction (Sample.World AspectRatio_MaintainYFOV)
    (Sample.Camera ⟨0, 0, 0⟩ ⟨0, 0⟩) (1 / 2) ⟨300, 200, 400⟩
    (by rw [Sample.not_forced, Sample.PlayersLocation]; simp)
    (by norm_num [Sample.Camera]) (by norm_num)
  rw [h]
  norm_num [Sample.Camera, FVector.add, FVector.sub, FVector.scale]

/-- C9: `UpdateLocation` moves toward the locked location (of the level's corner cells)
whenever the center-lock flag is set, or no player is alive, or the force-start flag is
set, and toward the location between the players only when none of the three holds; with
no player alive its result does not depend on the players' cells; and a set center-lock
flag selects the locked location also while the game state is `InGame` with players
alive, in particular right after `SetCameraLockedOnCenter (true)`. -/
theorem C9_locked_fallback (W : FWorld α) (C : UMyCameraComponent α) (DeltaTime : α) :
    ((C.bIsCameraLockedOnCenterInternal = true ∨ W.AlivePlayersNum = 0
        ∨ C.bForceStartInternal = true) →
      UpdateLocation W C DeltaTime
        = if C.ComponentLocation.Equals (GetCameraLockedLocation W C) Tolerance = true then
            (C, false)
          else
            (MoveCamera C DeltaTime (GetCameraLockedLocation W C), true))
    ∧ (¬ (C.bIsCameraLockedOnCenterInternal = true ∨ W.AlivePlayersNum = 0
        ∨ C.bForceStartInternal = true) →
      UpdateLocation W C DeltaTime
        = (MoveCamera C DeltaTime (GetCameraLocationBetweenPlayers W C), true))
    ∧ (W.AlivePlayersNum = 0 → ∀ Cells : FCells α,
      UpdateLocation { W with PlayersCells := Cells } C DeltaTime = UpdateLocation W C DeltaTime)
    ∧ (W.CurrentGameState = ECurrentGameState.InGame → W.AlivePlayersNum ≠ 0 →
      UpdateLocation W (SetCameraLockedOnCenter W C true) DeltaTime
        = if (SetCameraLockedOnCenter W C true).ComponentLocation.Equals
              (GetCameraLockedLocation W (SetCameraLockedOnCenter W C true)) Tolerance = true
          then
            (SetCameraLockedOnCenter W C true, false)
          else
            (MoveCamera (SetCameraLockedOnCenter W C true) DeltaTime
              (GetCameraLockedLocation W (SetCameraLockedOnCenter W C true)), true)) := by
  refine ⟨?_, ?_, ?_, ?_⟩
  · intro hF
    exact UpdateLocation_of_forced W C DeltaTime ((IsForcedToStart_iff W C).mpr hF)
  · intro hF
    apply UpdateLocation_of_not_forced
    rw [← Bool.not_eq_true]
    exact fun h => hF ((IsForcedToStart_iff W C).mp h)
  · intro h0 Cells
    have h1 : IsForcedToStart W C = true := (IsForcedToStart_iff W C).mpr (Or.inr (Or.inl h0))
    have h2 : IsForcedToStart { W with PlayersCells := Cells } C = true :=
      (IsForcedToStart_iff _ C).mpr (Or.inr (Or.inl h0))
    rw [UpdateLocation_of_forced W C DeltaTime h1, UpdateLocation_of_forced _ C DeltaTime h2]
    rfl
  · intro _ _
    apply UpdateLocation_of_forced
    exact (IsForcedToStart_iff W _).mpr (Or.inl rfl)

/-- C9 at the sample world with no player alive: the camera at the origin is put on the
locked location (0, 0, 1000) by an update without a time step. -/
theorem C9_locked_fallback_witness :
    UpdateLocation { Sample.World AspectRatio_MaintainYFOV with AlivePlayersNum := 0 }
        (Sample.Camera ⟨0, 0, 0⟩ ⟨0, 0⟩) 0
      = (Sample.Camera ⟨0, 0, 1000⟩ ⟨0, 0⟩, true) := by
  have h := (C9_locked_fallback
    { Sample.World AspectRatio_MaintainYFOV with AlivePlayersNum := 0 }
    (Sample.Camera ⟨0, 0, 0⟩ ⟨0, 0⟩) 0).1 (Or.inr (Or.inl rfl))
  have hL : GetCameraLockedLocation
      { Sample.World AspectRatio_MaintainYFOV with AlivePlayersNum := 0 }
      (Sample.Camera ⟨0, 0, 0⟩ ⟨0, 0⟩) = ⟨0, 0, 1000⟩ :=
    Sample.LockedLocation ⟨0, 0, 0⟩
  rw [h, hL]
  norm_num [FVector.Equals_iff, Tolerance, MoveCamera, Sample.Camera]

/-- C10, as stated, fails for `GameStarting`: from a component whose force-start and
center-lock flags are clear, with two players alive, the notification leaves the flags
as they are, and the next evaluation (without a time step) puts the camera on the
location between the players, (300, 200, 400), not on the locked location
(0, 0, 1000). -/
theorem C10_counterexample :
    GetCameraLockedLocation
        (OnGameStateChanged (Sample.World AspectRatio_MaintainYFOV)
          (Sample.Camera ⟨0, 0, 0⟩ ⟨0, 0⟩) ECurrentGameState.GameStarting).1
        (OnGameStateChanged (Sample.World AspectRatio_MaintainYFOV)
          (Sample.Camera ⟨0, 0, 0⟩ ⟨0, 0⟩) ECurrentGameState.GameStarting).2
      = ⟨0, 0, 1000⟩
    ∧ GetCameraLocationBetweenPlayers
        (OnGameStateChanged (Sample.World AspectRatio_MaintainYFOV)
          (Sample.Camera ⟨0, 0, 0⟩ ⟨0, 0⟩) ECurrentGameState.GameStarting).1
        (OnGameStateChanged (Sample.World AspectRatio_MaintainYFOV)
          (Sample.Camera ⟨0, 0, 0⟩ ⟨0, 0⟩) ECurrentGameState.GameStarting).2
      = ⟨300, 200, 400⟩
    ∧ (UpdateLocation
        (OnGameStateChanged (Sample.World AspectRatio_MaintainYFOV)
          (Sample.Camera ⟨0, 0, 0⟩ ⟨0, 0⟩) ECurrentGameState.GameStarting).1
        (OnGameStateChanged (Sample.World AspectRatio_MaintainYFOV)
          (Sample.Camera ⟨0, 0, 0⟩ ⟨0, 0⟩) ECurrentGameState.GameStarting).2
        0).1.ComponentLocation
      = ⟨300, 200, 400⟩ := by
  have hL : GetCameraLockedLocation
      (PossessCamera (Sample.World AspectRatio_MaintainYFOV) (Sample.Camera ⟨0, 0, 0⟩ ⟨0, 0⟩))
      { Sample.Camera ⟨0, 0, 0⟩ ⟨0, 0⟩ with bComponentTickEnabled := true } = ⟨0, 0, 1000⟩ :=
    (GetCameraLocationBetweenCells_PossessCamera _ _ _ _).trans (Sample.LockedLocation _)
  have hP : GetCameraLocationBetweenPlayers
      (PossessCamera (Sample.World AspectRatio_MaintainYFOV) (Sample.Camera ⟨0, 0, 0⟩ ⟨0, 0⟩))
      { Sample.Camera ⟨0, 0, 0⟩ ⟨0, 0⟩ with bComponentTickEnabled := true } = ⟨300, 200, 400⟩ :=
    (GetCameraLocationBetweenCells_PossessCamera _ _ _ _).trans (Sample.PlayersLocation _)
  have hF : IsForcedToStart
      (PossessCamera (Sample.World AspectRatio_MaintainYFOV) (Sample.Camera ⟨0, 0, 0⟩ ⟨0, 0⟩))
      { Sample.Camera ⟨0, 0, 0⟩ ⟨0, 0⟩ with bComponentTickEnabled := true } = false := by
    simp [IsForcedToStart, AlivePlayersNum_PossessCamera, Sample.World, Sample.Camera]
  refine ⟨hL, hP, ?_⟩
  have hU := UpdateLocation_of_not_forced _ _ (0 : ℚ) hF
  rw [hP] at hU
  exact (congrArg (fun R : UMyCameraComponent ℚ × Bool => R.1.ComponentLocation) hU).trans
    (by simp [MoveCamera])

/-- C10, amended: a game-state notification takes effect in the component it returns,
before any tick. After `EndGame` the force-start flag is set and the next evaluation
moves toward the locked location. After `InGame` the flag is clear and, with players
alive and the center-lock flag clear, the next evaluation moves toward the location
between the players. `GameStarting` leaves the force-start flag as it was: the next
evaluation moves toward the locked location when the center-lock flag is set, no player
is alive or the force-start flag was already set (as it is after `EndGame`), and toward
the location between the players otherwise. -/
theorem C10_state_mapping (W : FWorld α) (C : UMyCameraComponent α) (DeltaTime : α) :
    (∀ (W1 : FWorld α) (C1 : UMyCameraComponent α),
      OnGameStateChanged W C ECurrentGameState.EndGame = (W1, C1) →
      C1.bForceStartInternal = true
      ∧ UpdateLocation W1 C1 DeltaTime
        = if C1.ComponentLocation.Equals (GetCameraLockedLocation W1 C1) Tolerance = true then
            (C1, false)
          else
            (MoveCamera C1 DeltaTime (GetCameraLockedLocation W1 C1), true))
    ∧ (∀ (W1 : FWorld α) (C1 : UMyCameraComponent α),
      OnGameStateChanged W C ECurrentGameState.InGame = (W1, C1) →
      C1.bForceStartInternal = false
      ∧ (W.AlivePlayersNum ≠ 0 → C.bIsCameraLockedOnCenterInternal = false →
        UpdateLocation W1 C1 DeltaTime
          = (MoveCamera C1 DeltaTime (GetCameraLocationBetweenPlayers W1 C1), true)))
    ∧ (∀ (W1 : FWorld α) (C1 : UMyCameraComponent α),
      OnGameStateChanged W C ECurrentGameState.GameStarting = (W1, C1) →
      C1.bForceStartInternal = C.bForceStartInternal
      ∧ ((C.bIsCameraLockedOnCenterInternal = true ∨ W.AlivePlayersNum = 0
            ∨ C.bForceStartInternal = true) →
        UpdateLocation W1 C1 DeltaTime
          = if C1.ComponentLocation.Equals (GetCameraLockedLocation W1 C1) Tolerance = true
            then
              (C1, false)
            else
              (MoveCamera C1 DeltaTime (GetCameraLockedLocation W1 C1), true))
      ∧ (¬ (C.bIsCameraLockedOnCenterInternal = true ∨ W.AlivePlayersNum = 0
            ∨ C.bForceStartInternal = true) →
        UpdateLocation W1 C1 DeltaTime
          = (MoveCamera C1 DeltaTime (GetCameraLocationBetweenPlayers W1 C1), true)))
    ∧ (∀ (g : ECurrentGameState) (W1 : FWorld α) (C1 : UMyCameraComponent α),
      OnGameStateChanged W C g = (W1, C1) →
      GetCameraLockedLocation W1 C1 = GetCameraLockedLocation W C
      ∧ GetCameraLocationBetweenPlayers W1 C1 = GetCameraLocationBetweenPlayers W C
      ∧ C1.ComponentLocation = C.ComponentLocation) := by
  refine ⟨?_, ?_, ?_, ?_⟩
  · intro W1 C1 h
    simp only [OnGameStateChanged, Prod.mk.injEq] at h
    obtain ⟨rfl, rfl⟩ := h
    refine ⟨rfl, ?_⟩
    exact UpdateLocation_of_forced _ _ _ ((IsForcedToStart_iff _ _).mpr (Or.inr (Or.inr rfl)))
  · intro W1 C1 h
    simp only [OnGameStateChanged, Prod.mk.injEq] at h
    obtain ⟨rfl, rfl⟩ := h
    refine ⟨rfl, ?_⟩
    intro hA hL
    apply UpdateLocation_of_not_forced
    simp [IsForcedToStart, hA, hL]
  · intro W1 C1 h
    simp only [OnGameStateChanged, Prod.mk.injEq] at h
    obtain ⟨rfl, rfl⟩ := h
    refine ⟨rfl, ?_, ?_⟩
    · intro hF
      apply UpdateLocation_of_forced
      rw [IsForcedToStart_iff, AlivePlayersNum_PossessCamera]
      exact hF
    · intro hF
      apply UpdateLocation_of_not_forced
      rw [← Bool.not_eq_true, IsForcedToStart_iff, AlivePlayersNum_PossessCamera]
      exact hF
  · intro g W1 C1 h
    cases g
    case GameStarting =>
      simp only [OnGameStateChanged, Prod.mk.injEq] at h
      obtain ⟨rfl, rfl⟩ := h
      refine ⟨?_, ?_, rfl⟩
      · unfold GetCameraLockedLocation
        rw [(Cells_PossessCamera W C).1, GetCameraLocationBetweenCells_PossessCamera]
        exact GetCameraLocationBetweenCells_congr W C _ _ rfl rfl
      · unfold GetCameraLocationBetweenPlayers
        rw [(Cells_PossessCamera W C).2, GetCameraLocationBetweenCells_PossessCamera]
        exact GetCameraLocationBetweenCells_congr W C _ _ rfl rfl
    all_goals
      simp only [OnGameStateChanged, Prod.mk.injEq] at h
      obtain ⟨rfl, rfl⟩ := h
      exact ⟨GetCameraLocationBetweenCells_congr _ C _ _ rfl rfl,
        GetCameraLocationBetweenCells_congr _ C _ _ rfl rfl, rfl⟩

/-- C10, amended, at the sample world: after `EndGame` the camera at the origin is put on
the locked location (0, 0, 1000) by an evaluation without a time step, although two
players are alive. -/
theorem C10_state_mapping_witness :
    (UpdateLocation (Sample.World AspectRatio_MaintainYFOV)
        { Sample.Camera ⟨0, 0, 0⟩ ⟨0, 0⟩ with
          bForceStartInternal := true, bComponentTickEnabled := true } 0).1.ComponentLocation
      = ⟨0, 0, 1000⟩ := by
  have h := ((C10_state_mapping (Sample.World AspectRatio_MaintainYFOV)
    (Sample.Camera ⟨0, 0, 0⟩ ⟨0, 0⟩) 0).1 _ _ rfl).2
  have hL : GetCameraLockedLocation (Sample.World AspectRatio_MaintainYFOV)
      { Sample.Camera ⟨0, 0, 0⟩ ⟨0, 0⟩ with
        bForceStartInternal := true, bComponentTickEnabled := true } = ⟨0, 0, 1000⟩ :=
    (GetCameraLocationBetweenCells_congr _ (Sample.Camera ⟨0, 0, 0⟩ ⟨0, 0⟩) _ _
      rfl rfl).trans (Sample.LockedLocation _)
  rw [h, hL]
  norm_num [FVector.Equals_iff, Tolerance, MoveCamera, Sample.Camera]

end Controller

/-! ## The aspect-ratio notification -/

section Notification

variable {α : Type} [LinearOrderedField α]

open EAspectRatioAxisConstraint UMyCameraComponent

/-- C11, as stated, fails: a tracking camera at the origin, not within the tolerance of
the location between the players (300, 200, 400), is placed exactly on that location by
the aspect-ratio notification, whereas a tick of half a second moves it half of the way,
to (150, 100, 200). -/
theorem C11_counterexample :
    ¬ (|(Sample.Camera ⟨0, 0, 0⟩ ⟨0, 0⟩).ComponentLocation.X - 300| ≤ (10 : ℚ)
        ∧ |(Sample.Camera ⟨0, 0, 0⟩ ⟨0, 0⟩).ComponentLocation.Y - 200| ≤ (10 : ℚ)
        ∧ |(Sample.Camera ⟨0, 0, 0⟩ ⟨0, 0⟩).ComponentLocation.Z - 400| ≤ (10 : ℚ))
    ∧ GetCameraLocationBetweenPlayers (Sample.World AspectRatio_MaintainYFOV)
        (Sample.Camera ⟨0, 0, 0⟩ ⟨0, 0⟩) = ⟨300, 200, 400⟩
    ∧ (OnAspectRatioChanged (Sample.World AspectRatio_MaintainYFOV)
        (Sample.Camera ⟨0, 0, 0⟩ ⟨0, 0⟩) (16 / 9)).ComponentLocation = ⟨300, 200, 400⟩
    ∧ (TickComponent (Sample.World AspectRatio_MaintainYFOV)
        (Sample.Camera ⟨0, 0, 0⟩ ⟨0, 0⟩) (1 / 2)).ComponentLocation = ⟨150, 100, 200⟩ := by
  have hF := Sample.not_forced AspectRatio_MaintainYFOV ⟨0, 0, 0⟩ ⟨0, 0⟩
  have hP := Sample.PlayersLocation ⟨0, 0, 0⟩
  have hU0 := UpdateLocation_of_not_forced (Sample.World AspectRatio_MaintainYFOV)
    (Sample.Camera ⟨0, 0, 0⟩ ⟨0, 0⟩) 0 hF
  have hU1 := UpdateLocation_of_not_forced (Sample.World AspectRatio_MaintainYFOV)
    (Sample.Camera ⟨0, 0, 0⟩ ⟨0, 0⟩) (1 / 2) hF
  rw [hP] at hU0 hU1
  refine ⟨by norm_num [Sample.Camera], hP, ?_, ?_⟩
  · unfold OnAspectRatioChanged
    rw [hU0]
    simp [MoveCamera]
  · unfold TickComponent
    rw [hU1]
    norm_num [MoveCamera, Sample.Camera, FVector.Lerp, FMath.Lerp]

/-- C11, amended: `OnAspectRatioChanged` recomputes the target and evaluates
`UpdateLocation` with the time step zero, which does not interpolate. A camera forced to
the start that is within the tolerance of the locked location stays where it is; one
that is not within the tolerance is placed on the locked location; a camera that is not
forced to the start is placed on the location between the players. Nothing else in the
component changes. -/
theorem C11_aspect_ratio_snaps (W : FWorld α) (C : UMyCameraComponent α)
    (NewAspectRatio : α) :
    OnAspectRatioChanged W C NewAspectRatio = (UpdateLocation W C 0).1
    ∧ ((C.bIsCameraLockedOnCenterInternal = true ∨ W.AlivePlayersNum = 0
          ∨ C.bForceStartInternal = true) →
        (|C.ComponentLocation.X - (GetCameraLockedLocation W C).X| ≤ 10
          ∧ |C.ComponentLocation.Y - (GetCameraLockedLocation W C).Y| ≤ 10
          ∧ |C.ComponentLocation.Z - (GetCameraLockedLocation W C).Z| ≤ 10) →
        OnAspectRatioChanged W C NewAspectRatio = C)
    ∧ ((C.bIsCameraLockedOnCenterInternal = true ∨ W.AlivePlayersNum = 0
          ∨ C.bForceStartInternal = true) →
        ¬ (|C.ComponentLocation.X - (GetCameraLockedLocation W C).X| ≤ 10
          ∧ |C.ComponentLocation.Y - (GetCameraLockedLocation W C).Y| ≤ 10
          ∧ |C.ComponentLocation.Z - (GetCameraLockedLocation W C).Z| ≤ 10) →
        OnAspectRatioChanged W C NewAspectRatio
          = { C with ComponentLocation := GetCameraLockedLocation W C })
    ∧ (¬ (C.bIsCameraLockedOnCenterInternal = true ∨ W.AlivePlayersNum = 0
          ∨ C.bForceStartInternal = true) →
        OnAspectRatioChanged W C NewAspectRatio
          = { C with ComponentLocation := GetCameraLocationBetweenPlayers W C }) := by
  refine ⟨rfl, ?_, ?_, ?_⟩
  · intro hF hE
    have hE1 : C.ComponentLocation.Equals (GetCameraLockedLocation W C) Tolerance = true :=
      (FVector.Equals_iff _ _ _).mpr hE
    unfold OnAspectRatioChanged
    rw [UpdateLocation_of_forced W C 0 ((IsForcedToStart_iff W C).mpr hF), if_pos hE1]
  · intro hF hE
    have hE1 : ¬ C.ComponentLocation.Equals (GetCameraLockedLocation W C) Tolerance = true :=
      fun h => hE ((FVector.Equals_iff _ _ _).mp h)
    unfold OnAspectRatioChanged
    rw [UpdateLocation_of_forced W C 0 ((IsForcedToStart_iff W C).mpr hF), if_neg hE1]
    simp [MoveCamera]
  · intro hF
    have hF1 : IsForcedToStart W C = false := by
      rw [← Bool.not_eq_true]
      exact fun h => hF ((IsForcedToStart_iff W C).mp h)
    unfold OnAspectRatioChanged
    rw [UpdateLocation_of_not_forced W C 0 hF1]
    simp [MoveCamera]

/-- C11, amended, at the sample world: the notification puts the tracking camera at the
origin on the location between the players. -/
theorem C11_aspect_ratio_snaps_witness :
    OnAspectRatioChanged (Sample.World AspectRatio_MaintainYFOV)
        (Sample.Camera ⟨0, 0, 0⟩ ⟨0, 0⟩) (16 / 9)
      = Sample.Camera ⟨300, 200, 400⟩ ⟨0, 0⟩ := by
  have h := (C11_aspect_ratio_snaps (Sample.World AspectRatio_MaintainYFOV)
    (Sample.Camera ⟨0, 0, 0⟩ ⟨0, 0⟩) (16 / 9)).2.2.2
    (by simp [Sample.World, Sample.Camera])
  rw [h, Sample.PlayersLocation]
  rfl

end Notification

/-! ## The aspect-ratio resolver -/

section Resolver

open EAspectRatioAxisConstraint

/-- C12: `GetViewportAspectRatioAxisConstraint` is defined on every state of the engine
pointers: it returns the local player's `AspectRatioAxisConstraint` when the engine, its
first local player controller and that controller's local player all exist, and
`AspectRatio_MAX` when the engine, the controller or the local player is missing; every
state falls under one of the two cases. -/
theorem C12_constraint_or_default (G : Option UEngine) :
    (∀ (E : UEngine) (PC : APlayerController) (LP : ULocalPlayer),
      G = some E → E.FirstLocalPlayerController = some PC → PC.LocalPlayer = some LP →
      GetViewportAspectRatioAxisConstraint G = LP.AspectRatioAxisConstraint)
    ∧ (G = none → GetViewportAspectRatioAxisConstraint G = AspectRatio_MAX)
    ∧ (∀ E : UEngine, G = some E → E.FirstLocalPlayerController = none →
      GetViewportAspectRatioAxisConstraint G = AspectRatio_MAX)
    ∧ (∀ (E : UEngine) (PC : APlayerController),
      G = some E → E.FirstLocalPlayerController = some PC → PC.LocalPlayer = none →
      GetViewportAspectRatioAxisConstraint G = AspectRatio_MAX)
    ∧ ((∃ (E : UEngine) (PC : APlayerController) (LP : ULocalPlayer),
          G = some E ∧ E.FirstLocalPlayerController = some PC ∧ PC.LocalPlayer = some LP)
        ∨ G = none
        ∨ (∃ E : UEngine, G = some E ∧ E.FirstLocalPlayerController = none)
        ∨ (∃ (E : UEngine) (PC : APlayerController),
          G = some E ∧ E.FirstLocalPlayerController = some PC ∧ PC.LocalPlayer = none)) := by
  refine ⟨?_, ?_, ?_, ?_, ?_⟩
  · intro E PC LP hG hE hPC
    simp [GetViewportAspectRatioAxisConstraint, hG, hE, hPC]
  · intro hG
    simp [GetViewportAspectRatioAxisConstraint, hG]
  · intro E hG hE
    simp [GetViewportAspectRatioAxisConstraint, hG, hE]
  · intro E PC hG hE hPC
    simp [GetViewportAspectRatioAxisConstraint, hG, hE, hPC]
  · cases G with
    | none => exact Or.inr (Or.inl rfl)
    | some E =>
      cases hE : E.FirstLocalPlayerController with
      | none => exact Or.inr (Or.inr (Or.inl ⟨E, rfl, hE⟩))
      | some PC =>
        cases hPC : PC.LocalPlayer with
        | none => exact Or.inr (Or.inr (Or.inr ⟨E, PC, rfl, hE, hPC⟩))
        | some LP => exact Or.inl ⟨E, PC, LP, rfl, hE, hPC⟩

/-- C12 at an engine whose first local player is constrained to `MaintainXFOV`. -/
theorem C12_constraint_or_default_witness :
    GetViewportAspectRatioAxisConstraint (Sample.Engine AspectRatio_MaintainXFOV)
      = AspectRatio_MaintainXFOV :=
  (C12_constraint_or_default (Sample.Engine AspectRatio_MaintainXFOV)).1
    ⟨some ⟨some ⟨AspectRatio_MaintainXFOV⟩⟩⟩ ⟨some ⟨AspectRatio_MaintainXFOV⟩⟩
    ⟨AspectRatio_MaintainXFOV⟩ rfl rfl rfl

end Resolver

/-! ## The distance calculator: degenerate views and closed forms -/

section Degenerate

variable {α : Type} [LinearOrderedField α]

open EAspectRatioAxisConstraint FCameraDistanceParams

/-- C13, as stated, fails for a minimal distance that is set to a negative value: a
single cell has the view size (0, 0), the half-angle tangent at 90 degrees is 1, and
with `MinDistance = -100` the distance of `GetCameraDistanceToCells` is 0, not -100. -/
theorem C13_counterexample :
    (Sample.GetCellArraySize [⟨⟨100, 100, 0⟩⟩]).scale Sample.CellSize = ⟨0, 0⟩
    ∧ (0 : ℚ) < Sample.Math.Tan (Sample.Math.DegreesToRadians (90 / 2))
    ∧ (Sample.Camera ⟨0, 0, 0⟩ ⟨0, -100⟩).DistanceParamsInternal.MinDistance ≠ 0
    ∧ UMyCameraComponent.GetCameraDistanceToCells (Sample.World AspectRatio_MaintainYFOV)
        (Sample.Camera ⟨0, 0, 0⟩ ⟨0, -100⟩) [⟨⟨100, 100, 0⟩⟩] = 0
    ∧ UMyCameraComponent.GetCameraDistanceToCells (Sample.World AspectRatio_MaintainYFOV)
        (Sample.Camera ⟨0, 0, 0⟩ ⟨0, -100⟩) [⟨⟨100, 100, 0⟩⟩]
        ≠ (Sample.Camera ⟨0, 0, 0⟩ ⟨0, -100⟩).DistanceParamsInternal.MinDistance := by
  have hd : UMyCameraComponent.GetCameraDistanceToCells
      (Sample.World AspectRatio_MaintainYFOV) (Sample.Camera ⟨0, 0, 0⟩ ⟨0, -100⟩)
      [⟨⟨100, 100, 0⟩⟩] = 0 := by
    norm_num [UMyCameraComponent.GetCameraDistanceToCells, Sample.World, Sample.Camera,
      UMyCameraComponent.GetCameraManagerFOV, CalculateFitViewAdditiveAngle,
      LimitToMinDistance, CalculateDistanceToFitViewToFOV,
      GetViewportAspectRatioAxisConstraint, Sample.Engine, Sample.Math,
      Sample.GetCellArraySize, Sample.CellSize, Sample.ListMax, Sample.ListMin,
      FVector2D.scale, FMath.Max]
  refine ⟨?_, ?_, ?_, hd, ?_⟩
  · norm_num [Sample.GetCellArraySize, Sample.CellSize, Sample.ListMax, Sample.ListMin,
      FVector2D.scale]
  · norm_num [Sample.Math]
  · norm_num [Sample.Camera]
  · rw [hd]
    norm_num [Sample.Camera]

/-- C13, amended: for the view size (0, 0) and a positive half-angle tangent, under every
aspect-ratio constraint, `CalculateDistanceToFitViewToFOV` returns 0, and
`GetCameraDistanceToCells` returns the maximum of 0 and `MinDistance`: `MinDistance` when
it is positive, 0 when it is zero (not set) or negative. -/
theorem C13_zero_view (M : FMathLib α) (G : Option UEngine) (F : α)
    (W : FWorld α) (C : UMyCameraComponent α) (Cells : FCells α)
    (hk : 0 < M.Tan (M.DegreesToRadians (F / 2)))
    (hkW : 0 < W.Math.Tan (W.Math.DegreesToRadians
      (C.DistanceParamsInternal.CalculateFitViewAdditiveAngle W.GEngine
        (UMyCameraComponent.GetCameraManagerFOV W C) / 2)))
    (hV : (W.GetCellArraySize Cells).scale W.CellSize = ⟨0, 0⟩) :
    CalculateDistanceToFitViewToFOV M G ⟨0, 0⟩ F = 0
    ∧ UMyCameraComponent.GetCameraDistanceToCells W C Cells
        = max 0 C.DistanceParamsInternal.MinDistance
    ∧ (0 < C.DistanceParamsInternal.MinDistance →
        UMyCameraComponent.GetCameraDistanceToCells W C Cells
          = C.DistanceParamsInternal.MinDistance)
    ∧ (C.DistanceParamsInternal.MinDistance ≤ 0 →
        UMyCameraComponent.GetCameraDistanceToCells W C Cells = 0) := by
  -- the quotients `0 / k` and `0 / (2 * k)` are taken at a non-zero `k`
  have h0 : ∀ (M1 : FMathLib α) (G1 : Option UEngine) (F1 : α),
      M1.Tan (M1.DegreesToRadians (F1 / 2)) ≠ 0 →
      CalculateDistanceToFitViewToFOV M1 G1 ⟨0, 0⟩ F1 = 0 := by
    intro M1 G1 F1 _
    by_cases hG : GetViewportAspectRatioAxisConstraint G1 = AspectRatio_MaintainYFOV
    · rw [distance_of_wide M1 G1 _ F1 hG]
      simp
    · rw [distance_of_not_wide M1 G1 _ F1 hG]
      simp
  have hd : UMyCameraComponent.GetCameraDistanceToCells W C Cells
      = max 0 C.DistanceParamsInternal.MinDistance := by
    unfold UMyCameraComponent.GetCameraDistanceToCells
    simp only [hV, h0 _ _ _ hkW.ne.symm]
    unfold LimitToMinDistance
    split_ifs with hm
    · exact FMath.Max_eq_max _ _
    · rw [not_not] at hm
      rw [hm, max_self]
  refine ⟨h0 M G F hk.ne.symm, hd, ?_, ?_⟩
  · intro hpos
    rw [hd, max_eq_right hpos.le]
  · intro hneg
    rw [hd, max_eq_left hneg]

/-- C13, amended, at a single cell and the minimal distance 500: the distance is 500. -/
theorem C13_zero_view_witness :
    UMyCameraComponent.GetCameraDistanceToCells (Sample.World AspectRatio_MaintainYFOV)
        (Sample.Camera ⟨0, 0, 0⟩ ⟨0, 500⟩) [⟨⟨100, 100, 0⟩⟩] = 500 :=
  (C13_zero_view Sample.Math (Sample.Engine AspectRatio_MaintainYFOV) 90
    (Sample.World AspectRatio_MaintainYFOV) (Sample.Camera ⟨0, 0, 0⟩ ⟨0, 500⟩)
    [⟨⟨100, 100, 0⟩⟩]
    (by norm_num [Sample.Math])
    (by norm_num [CalculateFitViewAdditiveAngle, UMyCameraComponent.GetCameraManagerFOV,
      Sample.World, Sample.Camera, Sample.Math])
    (by norm_num [Sample.World, Sample.GetCellArraySize, Sample.CellSize, Sample.ListMax,
      Sample.ListMin, FVector2D.scale])).2.2.1
    (by norm_num [Sample.Camera])

/-- C15 evaluated: with the additive angle 10 at a field of view of 100 degrees, and the
view 1000 x 3000 at 90 degrees (half-angle tangent 1). Under `MaintainXFOV` the angle is
added and the distance is the Y-based 3000; under `MaintainYFOV` the angle is subtracted
and the distance is the X-based 1000; without an engine the resolver returns
`AspectRatio_MAX`, the angle is subtracted as on a wide screen, yet the distance is the
Y-based 3000 of a screen that is not wide. -/
theorem C15_default_constraint_mismatch :
    ((⟨10, 0⟩ : FCameraDistanceParams ℚ).CalculateFitViewAdditiveAngle
          (Sample.Engine AspectRatio_MaintainXFOV) 100 = 100 + 10
      ∧ CalculateDistanceToFitViewToFOV Sample.Math (Sample.Engine AspectRatio_MaintainXFOV)
          ⟨1000, 3000⟩ 90 = 3000)
    ∧ ((⟨10, 0⟩ : FCameraDistanceParams ℚ).CalculateFitViewAdditiveAngle
          (Sample.Engine AspectRatio_MaintainYFOV) 100 = 100 - 10
      ∧ CalculateDistanceToFitViewToFOV Sample.Math (Sample.Engine AspectRatio_MaintainYFOV)
          ⟨1000, 3000⟩ 90 = 1000)
    ∧ (GetViewportAspectRatioAxisConstraint none = AspectRatio_MAX
      ∧ (⟨10, 0⟩ : FCameraDistanceParams ℚ).CalculateFitViewAdditiveAngle none 100 = 100 - 10
      ∧ CalculateDistanceToFitViewToFOV Sample.Math none ⟨1000, 3000⟩ 90 = 3000
      ∧ UMyCameraComponent.GetCameraDistanceToCells
          { Sample.World AspectRatio_MAX with
            GEngine := none, LocalPlayerController := some ⟨some ⟨100⟩, none⟩ }
          (Sample.Camera ⟨0, 0, 0⟩ ⟨10, 0⟩) Sample.CornerCells = 2000) := by
  have hXY : AspectRatio_MaintainXFOV ≠ AspectRatio_MaintainYFOV := by decide
  have hYX : AspectRatio_MaintainYFOV ≠ AspectRatio_MaintainXFOV := by decide
  have hMX : AspectRatio_MAX ≠ AspectRatio_MaintainXFOV := by decide
  have hMY : AspectRatio_MAX ≠ AspectRatio_MaintainYFOV := by decide
  refine ⟨⟨?_, ?_⟩, ⟨?_, ?_⟩, rfl, ?_, ?_, ?_⟩
  · norm_num [CalculateFitViewAdditiveAngle, GetViewportAspectRatioAxisConstraint,
      Sample.Engine]
  · norm_num [CalculateDistanceToFitViewToFOV, GetViewportAspectRatioAxisConstraint,
      Sample.Engine, Sample.Math, FMath.Max, hXY]
  · norm_num [CalculateFitViewAdditiveAngle, GetViewportAspectRatioAxisConstraint,
      Sample.Engine, hYX]
  · norm_num [CalculateDistanceToFitViewToFOV, GetViewportAspectRatioAxisConstraint,
      Sample.Engine, Sample.Math, FMath.Max]
  · norm_num [CalculateFitViewAdditiveAngle, GetViewportAspectRatioAxisConstraint, hMX]
  · norm_num [CalculateDistanceToFitViewToFOV, GetViewportAspectRatioAxisConstraint,
      Sample.Math, FMath.Max, hMY]
  · norm_num [UMyCameraComponent.GetCameraDistanceToCells, Sample.World, Sample.Camera,
      Sample.CornerCells, UMyCameraComponent.GetCameraManagerFOV,
      CalculateFitViewAdditiveAngle, LimitToMinDistance, CalculateDistanceToFitViewToFOV,
      GetViewportAspectRatioAxisConstraint, Sample.Math, Sample.GetCellArraySize,
      Sample.CellSize, Sample.ListMax, Sample.ListMin, FVector2D.scale, FMath.Max, hMX, hMY]

/-- C16: for non-negative extents and a positive half-angle tangent `k`, the distance of
`CalculateDistanceToFitViewToFOV` is `X / k` under `MaintainYFOV`, whatever Y is, the
second candidate `X / (2 * k)` never exceeding the first; under every other constraint
it is `Y * max (k / 2) (1 / k)`, whatever X is, which is `Y / k` when `k * k ≤ 2` and
`Y * k / 2` when `2 ≤ k * k`. -/
theorem C16_closed_form (M : FMathLib α) (G : Option UEngine) (V : FVector2D α) (F : α)
    (hX : 0 ≤ V.X) (hY : 0 ≤ V.Y) (hk : 0 < M.Tan (M.DegreesToRadians (F / 2))) :
    (GetViewportAspectRatioAxisConstraint G = AspectRatio_MaintainYFOV →
      CalculateDistanceToFitViewToFOV M G V F = V.X / M.Tan (M.DegreesToRadians (F / 2))
      ∧ V.X / (2 * M.Tan (M.DegreesToRadians (F / 2)))
          ≤ V.X / M.Tan (M.DegreesToRadians (F / 2))
      ∧ ∀ Y1 : α, CalculateDistanceToFitViewToFOV M G ⟨V.X, Y1⟩ F
          = CalculateDistanceToFitViewToFOV M G V F)
    ∧ (GetViewportAspectRatioAxisConstraint G ≠ AspectRatio_MaintainYFOV →
      CalculateDistanceToFitViewToFOV M G V F
          = V.Y * max (M.Tan (M.DegreesToRadians (F / 2)) / 2)
              (1 / M.Tan (M.DegreesToRadians (F / 2)))
      ∧ (∀ X1 : α, CalculateDistanceToFitViewToFOV M G ⟨X1, V.Y⟩ F
          = CalculateDistanceToFitViewToFOV M G V F)
      ∧ (M.Tan (M.DegreesToRadians (F / 2)) * M.Tan (M.DegreesToRadians (F / 2)) ≤ 2 →
          CalculateDistanceToFitViewToFOV M G V F = V.Y / M.Tan (M.DegreesToRadians (F / 2)))
      ∧ (2 ≤ M.Tan (M.DegreesToRadians (F / 2)) * M.Tan (M.DegreesToRadians (F / 2)) →
          CalculateDistanceToFitViewToFOV M G V F
            = V.Y * M.Tan (M.DegreesToRadians (F / 2)) / 2)) := by
  generalize hkdef : M.Tan (M.DegreesToRadians (F / 2)) = k at hk
  constructor
  · intro hG
    have hle : V.X / (2 * k) ≤ V.X / k :=
      div_le_div_of_nonneg_left hX hk (by linarith)
    refine ⟨?_, hle, ?_⟩
    · rw [distance_of_wide M G V F hG, hkdef, max_eq_left hle]
    · intro Y1
      rw [distance_of_wide M G V F hG, distance_of_wide M G _ F hG]
  · intro hG
    have hmax : max (V.Y / 2 * k) (V.Y / k) = V.Y * max (k / 2) (1 / k) := by
      rw [mul_max_of_nonneg _ _ hY]
      congr 1 <;> ring
    have hiff : k / 2 ≤ 1 / k ↔ k * k ≤ 2 := by
      rw [div_le_div_iff₀ (by norm_num : (0 : α) < 2) hk]
      constructor <;> intro h <;> linarith
    refine ⟨?_, ?_, ?_, ?_⟩
    · rw [distance_of_not_wide M G V F hG, hkdef, hmax]
    · intro X1
      rw [distance_of_not_wide M G V F hG, distance_of_not_wide M G _ F hG]
    · intro h2
      rw [distance_of_not_wide M G V F hG, hkdef, hmax, max_eq_right (hiff.mpr h2)]
      ring
    · intro h2
      have h3 : 1 / k ≤ k / 2 := by
        rw [div_le_div_iff₀ hk (by norm_num : (0 : α) < 2)]
        linarith
      rw [distance_of_not_wide M G V F hG, hkdef, hmax, max_eq_left h3]
      ring

/-- C16 at the 1000 x 3000 view, 90 degrees, `MaintainYFOV`: the distance is 1000 / 1. -/
theorem C16_closed_form_witness :
    CalculateDistanceToFitViewToFOV Sample.Math (Sample.Engine AspectRatio_MaintainYFOV)
        ⟨1000, 3000⟩ 90
      = 1000 / Sample.Math.Tan (Sample.Math.DegreesToRadians (90 / 2)) :=
  ((C16_closed_form Sample.Math (Sample.Engine AspectRatio_MaintainYFOV) ⟨1000, 3000⟩ 90
    (by norm_num) (by norm_num) (by norm_num [Sample.Math])).1 rfl).1

end Degenerate

/-! ## The search among attached actors -/

section Attached

/-- Without descendants the loop finds the first element of the class among the non-null
elements of the array. -/
theorem GetAttachedActorByClass.loop_direct (IsChildOf : UClass → UClass → Bool)
    (ChildActorClass : UClass) (Rest : List (Option AActor)) :
    GetAttachedActorByClass.loop IsChildOf Rest ChildActorClass false
      = Rest.reduceOption.find? (fun A => IsChildOf A.Class ChildActorClass) := by
  induction Rest with
  | nil => simp [GetAttachedActorByClass.loop]
  | cons It Rest1 ih =>
    cases It with
    | none =>
      rw [GetAttachedActorByClass.loop]
      simp [ih, List.reduceOption_cons_of_none]
    | some A =>
      rw [GetAttachedActorByClass.loop]
      by_cases hA : IsChildOf A.Class ChildActorClass = true
      · simp [hA, List.reduceOption_cons_of_some]
      · simp [hA, ih, List.reduceOption_cons_of_some]

mutual
/-- With descendants the search below an actor finds the first actor of the class in the
pre-order of its descendants. -/
theorem GetAttachedActorByClass.eq_find_Descendants (IsChildOf : UClass → UClass → Bool)
    (ChildActorClass : UClass) :
    ∀ ParentActor : AActor,
    GetAttachedActorByClass IsChildOf (some ParentActor) ChildActorClass true
      = ParentActor.Descendants.find? (fun A => IsChildOf A.Class ChildActorClass)
  | AActor.mk Name Class AttachedActors => by
    rw [GetAttachedActorByClass, AActor.Descendants]
    cases AttachedActors with
    | nil => simp [AActor.DescendantsOfList]
    | cons It Rest =>
      simp only [List.isEmpty_cons, Bool.false_eq_true, if_false]
      exact GetAttachedActorByClass.loop_eq_find_Descendants IsChildOf ChildActorClass
        (It :: Rest)
/-- With descendants the loop finds the first actor of the class in the pre-order of the
array. -/
theorem GetAttachedActorByClass.loop_eq_find_Descendants
    (IsChildOf : UClass → UClass → Bool) (ChildActorClass : UClass) :
    ∀ Rest : List (Option AActor),
    GetAttachedActorByClass.loop IsChildOf Rest ChildActorClass true
      = (AActor.DescendantsOfList Rest).find? (fun A => IsChildOf A.Class ChildActorClass)
  | [] => by simp [GetAttachedActorByClass.loop, AActor.DescendantsOfList]
  | none :: Rest1 => by
    rw [GetAttachedActorByClass.loop, AActor.DescendantsOfList]
    simp [GetAttachedActorByClass,
      GetAttachedActorByClass.loop_eq_find_Descendants IsChildOf ChildActorClass Rest1]
  | some A :: Rest1 => by
    rw [GetAttachedActorByClass.loop, AActor.DescendantsOfList]
    by_cases hA : IsChildOf A.Class ChildActorClass = true
    · simp [hA]
    · simp only [hA, Bool.false_eq_true, if_false, if_true, List.find?_cons,
        List.find?_append,
        GetAttachedActorByClass.eq_find_Descendants IsChildOf ChildActorClass A,
        GetAttachedActorByClass.loop_eq_find_Descendants IsChildOf ChildActorClass Rest1]
      cases List.find? (fun A => IsChildOf A.Class ChildActorClass) A.Descendants <;> simp
end

/-- The search below an actor finds the first actor of the class in its scope. -/
theorem GetAttachedActorByClass.eq_find_AttachedScope (IsChildOf : UClass → UClass → Bool)
    (ChildActorClass : UClass) (bIncludeDescendants : Bool) (ParentActor : AActor) :
    GetAttachedActorByClass IsChildOf (some ParentActor) ChildActorClass bIncludeDescendants
      = (ParentActor.AttachedScope bIncludeDescendants).find?
          (fun A => IsChildOf A.Class ChildActorClass) := by
  cases bIncludeDescendants with
  | true =>
    simpa [AActor.AttachedScope] using
      GetAttachedActorByClass.eq_find_Descendants IsChildOf ChildActorClass ParentActor
  | false =>
    cases ParentActor with
    | mk Name Class AttachedActors =>
      rw [GetAttachedActorByClass]
      cases AttachedActors with
      | nil => simp [AActor.AttachedScope, AActor.AttachedActors]
      | cons It Rest =>
        simp only [List.isEmpty_cons, Bool.false_eq_true, if_false]
        simpa [AActor.AttachedScope, AActor.AttachedActors] using
          GetAttachedActorByClass.loop_direct IsChildOf ChildActorClass (It :: Rest)

/-- C14: on an attachment tree `GetAttachedActorByClass` is a total function (its
recursion terminates). It returns null for a null parent. Otherwise it returns the first
actor of the class in the scope of the search, which is the direct children in the order
of `GetAttachedActors` when `bIncludeDescendants` is false and the depth-first pre-order
(each child followed by its descendants) when it is true: the returned actor is of the
class and no actor before it in the scope is; and it returns null exactly when no actor
of the scope is of the class. -/
theorem C14_first_attached_of_class (IsChildOf : UClass → UClass → Bool)
    (ChildActorClass : UClass) (bIncludeDescendants : Bool) :
    GetAttachedActorByClass IsChildOf none ChildActorClass bIncludeDescendants = none
    ∧ ∀ ParentActor : AActor,
      GetAttachedActorByClass IsChildOf (some ParentActor) ChildActorClass bIncludeDescendants
          = (ParentActor.AttachedScope bIncludeDescendants).find?
              (fun A => IsChildOf A.Class ChildActorClass)
      ∧ (∀ FoundActor : AActor,
          GetAttachedActorByClass IsChildOf (some ParentActor) ChildActorClass
              bIncludeDescendants = some FoundActor ↔
            IsChildOf FoundActor.Class ChildActorClass = true
            ∧ ∃ Before After : List AActor,
                ParentActor.AttachedScope bIncludeDescendants
                  = Before ++ FoundActor :: After
                ∧ ∀ A ∈ Before, IsChildOf A.Class ChildActorClass = false)
      ∧ (GetAttachedActorByClass IsChildOf (some ParentActor) ChildActorClass
            bIncludeDescendants = none ↔
          ∀ A ∈ ParentActor.AttachedScope bIncludeDescendants,
            IsChildOf A.Class ChildActorClass = false) := by
  refine ⟨by rw [GetAttachedActorByClass], ?_⟩
  intro ParentActor
  have h := GetAttachedActorByClass.eq_find_AttachedScope IsChildOf ChildActorClass
    bIncludeDescendants ParentActor
  refine ⟨h, ?_, ?_⟩
  · intro FoundActor
    rw [h, List.find?_eq_some]
    simp
  · rw [h, List.find?_eq_none]
    simp

/-- C14 at the sample tree and class 7: with descendants the search returns actor 2,
attached to the first child; without them it returns actor 3, the last child. -/
theorem C14_first_attached_of_class_witness :
    GetAttachedActorByClass Sample.IsChildOf (some Sample.Tree) 7 true
        = some (AActor.mk 2 7 [])
    ∧ GetAttachedActorByClass Sample.IsChildOf (some Sample.Tree) 7 false
        = some (AActor.mk 3 7 []) :=
  ⟨((C14_first_attached_of_class Sample.IsChildOf 7 true).2 Sample.Tree).1.trans
      (by simp [AActor.AttachedScope, Sample.Tree, AActor.Descendants,
        AActor.DescendantsOfList, Sample.IsChildOf, AActor.Class]),
   ((C14_first_attached_of_class Sample.IsChildOf 7 false).2 Sample.Tree).1.trans
      (by simp [AActor.AttachedScope, Sample.Tree, AActor.AttachedActors,
        List.reduceOption, Sample.IsChildOf, AActor.Class])⟩

end Attached

end Bomber
